import Mathlib

/-!
Verification development for the shared-cart / order-ticket coordinator
(`src/app.py`).  The Python source is shallowly embedded: every store- or
handler-level function below is a direct translation of the function of the
same name in `app.py`.  Modelling conventions:

* JSON / Python values appearing in cart lines are modelled by `PyVal`
  (fractional numbers are not modelled; the payloads the claims concern are
  integers, strings, booleans, `None`, lists and dicts).
* Python `int(x)` is partial — it raises on non-numeric strings and on
  lists/dicts/None — and is modelled by `pyInt : PyVal → Except Unit Int`.
* Wall-clock timestamps are abstract `Nat` ticks; `now` is threaded as an
  explicit argument.  `expires_str()` becomes `now + SESSION_TTL_SECONDS`.
* `uuid.uuid4().hex` is modelled by an explicit fresh-name seed threaded
  through normalisation (the generated names never influence control flow).
* sqlite tables are lists of rows in insertion order; `AUTOINCREMENT` ids are
  `max id + 1` (exact here since no row of `orders` / `order_tickets` is ever
  deleted); `UPDATE … WHERE` is a `List.map` over the rows.
-/

/-- A Python/JSON value as it can occur inside a cart line. -/
inductive PyVal where
  | pnone : PyVal
  | pint (n : Int) : PyVal
  | pbool (b : Bool) : PyVal
  | pstr (s : String) : PyVal
  | plist (xs : List PyVal) : PyVal
  | pdict (fs : List (String × PyVal)) : PyVal

/-- Python truthiness (`bool(x)`): `None`, `False`, `0`, `""`, `[]`, `{}` are falsy. -/
def pyTruthy : PyVal → Bool
  | .pnone => false
  | .pint n => n != 0
  | .pbool b => b
  | .pstr s => s ≠ ""
  | .plist xs => !xs.isEmpty
  | .pdict fs => !fs.isEmpty

/-- Python `str(x)` restricted to the scalar values the code ever stringifies.
(The rendering of lists/dicts is a placeholder; no code path below applies
`str` to a list or dict value on the inputs the claims concern.) -/
def pyStr : PyVal → String
  | .pnone => "None"
  | .pint n => toString n
  | .pbool b => if b then "True" else "False"
  | .pstr s => s
  | .plist _ => "<list>"
  | .pdict _ => "<dict>"

/-- Python `str.strip()`: drop whitespace from both ends. -/
def pyStrip (s : String) : String :=
  String.mk (((s.toList.dropWhile Char.isWhitespace).reverse.dropWhile
    Char.isWhitespace).reverse)

/-- Python `str.lower()`. -/
def pyLower (s : String) : String :=
  String.mk (s.toList.map Char.toLower)

/-- Decimal-digit run parser used by `parsePyInt`. -/
def digitsToNat (cs : List Char) (acc : Nat) : Option Nat :=
  match cs with
  | [] => some acc
  | c :: rest =>
    if c.isDigit then digitsToNat rest (acc * 10 + (c.toNat - 48)) else none

/-- The integer strings `int(...)` accepts: an optional minus sign followed
by decimal digits. -/
def parsePyInt (s : String) : Option Int :=
  match s.toList with
  | [] => none
  | '-' :: [] => none
  | '-' :: cs => (digitsToNat cs 0).map (fun n => -(n : Int))
  | cs => (digitsToNat cs 0).map (fun n => (n : Int))

/-- Python `int(x)`: succeeds on ints, booleans and integer-shaped strings,
raises (`.error ()`) on everything else — in particular on non-numeric
strings, `None`, lists and dicts. -/
def pyInt : PyVal → Except Unit Int
  | .pint n => .ok n
  | .pbool b => .ok (if b then 1 else 0)
  | .pstr s =>
      match parsePyInt (pyStrip s) with
      | some n => .ok n
      | none => .error ()
  | _ => .error ()

/-- Python iteration `for a in v`: lists yield elements, strings yield their
characters, dicts yield their keys; ints / booleans / `None` raise. -/
def pyIter : PyVal → Except Unit (List PyVal)
  | .plist xs => .ok xs
  | .pstr s => .ok (s.toList.map (fun c => .pstr (String.mk [c])))
  | .pdict fs => .ok (fs.map (fun p => .pstr p.1))
  | _ => .error ()

/-- `d.get(k, default)` for an optional field: the stored value when the key
is present (possibly `None`), else the default. -/
def pyGet (field : Option PyVal) (dflt : PyVal) : PyVal :=
  field.getD dflt

/-- `a.get(k, default)` on a dict value. -/
def dictGet (fs : List (String × PyVal)) (k : String) (dflt : PyVal) : PyVal :=
  match fs.find? (fun p => p.1 == k) with
  | some p => p.2
  | none => dflt

/-- One cart-line dict, restricted to the keys `app.py` ever reads.  A field
of `none` means the key is absent; `some .pnone` means it is present with
value `None`. -/
structure RawItem where
  lineId : Option PyVal := none
  name : Option PyVal := none
  enName : Option PyVal := none
  price : Option PyVal := none
  qty : Option PyVal := none
  remark : Option PyVal := none
  temp : Option PyVal := none
  addOns : Option PyVal := none
  addedBy : Option PyVal := none
  category : Option PyVal := none

/-- `normalize_cart_item(item)` from `app.py`.  `fresh` stands for
`uuid.uuid4().hex`.  Partial because `int(item.get("price", 0))` and
`int(item.get("qty", 1))` can raise. -/
def normalize_cart_item (fresh : String) (item : RawItem) : Except Unit RawItem :=
  match pyInt (pyGet item.price (.pint 0)) with
  | .error e => .error e
  | .ok priceInt =>
    match pyInt (pyGet item.qty (.pint 1)) with
    | .error e => .error e
    | .ok qtyInt =>
      .ok {
        lineId := some (if pyTruthy (pyGet item.lineId .pnone)
                        then pyGet item.lineId .pnone else .pstr fresh)
        name := some (.pstr (pyStr (pyGet item.name (.pstr ""))))
        enName := some (pyGet item.enName .pnone)
        price := some (.pint priceInt)
        qty := some (.pint (max 1 qtyInt))
        remark := some (.pstr (pyStr (pyGet item.remark (.pstr ""))))
        temp := some (pyGet item.temp .pnone)
        addOns := some (pyGet item.addOns (.plist []))
        addedBy := some (let s := (pyStrip (pyStr (pyGet item.addedBy (.pstr "")))).take 20
                         if s = "" then .pnone else .pstr s)
        category := some (pyGet item.category .pnone) }

/-- `[normalize_cart_item(x) for x in cart]`, threading the fresh-uuid seed. -/
def normalizeList (seed : Nat) : List RawItem → Except Unit (List RawItem)
  | [] => .ok []
  | x :: xs =>
    match normalize_cart_item ("u" ++ toString seed) x with
    | .error e => .error e
    | .ok y =>
      match normalizeList (seed + 1) xs with
      | .error e => .error e
      | .ok ys => .ok (y :: ys)

/-- `sum(int(a.get("price", 0)) for a in addOns if isinstance(a, dict))`. -/
def addOnsSum : List PyVal → Except Unit Int
  | [] => .ok 0
  | a :: rest =>
    match a with
    | .pdict fs =>
      match pyInt (dictGet fs "price" (.pint 0)) with
      | .error e => .error e
      | .ok p =>
        match addOnsSum rest with
        | .error e => .error e
        | .ok acc => .ok (p + acc)
    | _ => addOnsSum rest

/-- `calc_total(items)` from `app.py`: partial because `int(...)` raises on
malformed numeric fields and iterating a non-iterable `addOns` raises. -/
def calc_total : List RawItem → Except Unit Int
  | [] => .ok 0
  | it :: rest =>
    match pyIter (pyGet it.addOns (.plist [])) with
    | .error e => .error e
    | .ok elems =>
      match addOnsSum elems with
      | .error e => .error e
      | .ok add =>
        match pyInt (pyGet it.price (.pint 0)) with
        | .error e => .error e
        | .ok price =>
          match pyInt (pyGet it.qty (.pint 1)) with
          | .error e => .error e
          | .ok qty =>
            match calc_total rest with
            | .error e => .error e
            | .ok total => .ok ((price + add) * qty + total)

/-- `SESSION_TTL_SECONDS = 24 * 60 * 60`. -/
def SESSION_TTL_SECONDS : Nat := 24 * 60 * 60

/-- `ORDER_STATUS_ALLOWED = {"new", "making", "done", "cancelled"}`. -/
def ORDER_STATUS_ALLOWED : List String := ["new", "making", "done", "cancelled"]

/-- A row of the `orders` table. -/
structure OrderRow where
  id : Nat
  sessionId : String
  tableNum : String
  time : Nat
  items : List RawItem
  status : String

/-- A row of the `order_tickets` table. -/
structure TicketRow where
  id : Nat
  orderId : Nat
  sessionId : String
  tableNum : String
  time : Nat
  items : List RawItem
  status : String
  batchNo : Nat

/-- A row of the `sessions` table (`order_id` is the nullable bound order). -/
structure SessionRow where
  sessionId : String
  cart : List RawItem
  createdAt : Nat
  expiresAt : Nat
  updatedAt : Nat
  orderId : Option Nat

/-- The durable state: the four relations of `orders.db` that the core
touches (`orders`, `order_tickets`, `sessions`, `call_state`). -/
structure Store where
  sessions : List SessionRow
  orders : List OrderRow
  tickets : List TicketRow
  callCode : String
  callUpdatedAt : Nat

/-- The empty database produced by `init_db()`. -/
def Store.empty : Store := ⟨[], [], [], "", 0⟩

/-- Primary-key / id uniqueness, as sqlite guarantees for these tables. -/
def Store.WF (st : Store) : Prop :=
  (st.sessions.map (·.sessionId)).Nodup ∧
  (st.orders.map (·.id)).Nodup ∧
  (st.tickets.map (·.id)).Nodup

instance (st : Store) : Decidable st.WF := by
  unfold Store.WF; infer_instance

/-- `SELECT … FROM sessions WHERE session_id=?` (first — unique — row). -/
def findSession (st : Store) (sid : String) : Option SessionRow :=
  st.sessions.find? (fun r => r.sessionId == sid)

/-- `session_is_active(session_id)`. -/
def session_is_active (st : Store) (sid : String) (now : Nat) : Bool :=
  match findSession st sid with
  | none => false
  | some row => now < row.expiresAt

/-- `ensure_session(session_id, force_reset)`. -/
def ensure_session (st : Store) (sid : String) (now : Nat)
    (forceReset : Bool := false) : Store :=
  if sid = "" then st
  else
    match findSession st sid with
    | none =>
        { st with sessions := st.sessions ++
            [{ sessionId := sid, cart := [], createdAt := now,
               expiresAt := now + SESSION_TTL_SECONDS, updatedAt := now,
               orderId := none }] }
    | some row =>
        if row.expiresAt ≤ now ∨ forceReset = true then
          { st with sessions := st.sessions.map (fun r =>
              if r.sessionId == sid then
                { r with
                  cart := [], createdAt := now,
                  expiresAt := now + SESSION_TTL_SECONDS, updatedAt := now,
                  orderId := none }
              else r) }
        else st

/-- `get_session_cart(session_id)`. -/
def get_session_cart (st : Store) (sid : String) : List RawItem :=
  match findSession st sid with
  | none => []
  | some row => row.cart

/-- `save_session_cart(session_id, cart)`: normalizes every line, then
upserts (`ON CONFLICT(session_id) DO UPDATE` touches only `cart_json`,
`updated_at`, `expires_at` — never `order_id` or `created_at`). -/
def save_session_cart (st : Store) (sid : String) (cart : List RawItem)
    (now : Nat) (seed : Nat) : Except Unit Store :=
  match normalizeList seed cart with
  | .error e => .error e
  | .ok cart' =>
    match findSession st sid with
    | some _ =>
        .ok { st with sessions := st.sessions.map (fun r =>
            if r.sessionId == sid then
              { r with
                cart := cart', updatedAt := now,
                expiresAt := now + SESSION_TTL_SECONDS }
            else r) }
    | none =>
        .ok { st with sessions := st.sessions ++
            [{ sessionId := sid, cart := cart', createdAt := now,
               expiresAt := now + SESSION_TTL_SECONDS, updatedAt := now,
               orderId := none }] }

/-- `_get_session_order_id(session_id)`: `None` both when the session row is
absent and when its `order_id` is NULL. -/
def _get_session_order_id (st : Store) (sid : String) : Option Nat :=
  (findSession st sid).bind (·.orderId)

/-- Python truthiness applied to a nullable integer id (`if oid:` /
`if not order_id:` conflate NULL and 0). -/
def pyOptNat : Option Nat → Option Nat
  | some 0 => none
  | o => o

/-- `_set_session_order_id(session_id, order_id)` (an UPDATE: it writes
nothing when no session row matches). -/
def _set_session_order_id (st : Store) (sid : String) (oid : Nat) : Store :=
  { st with sessions := st.sessions.map (fun r =>
      if r.sessionId == sid then { r with orderId := some oid } else r) }

/-- `SELECT MAX(id) FROM orders WHERE session_id=?` folded as a maximum. -/
def maxOrderIdFor (st : Store) (sid : String) : Nat :=
  st.orders.foldr (fun r m => if r.sessionId == sid then max r.id m else m) 0

/-- `_find_existing_order_for_session(session_id)` (`int(row[0]) if row and
row[0] else None`: both an empty MAX and a 0 id yield `None`). -/
def _find_existing_order_for_session (st : Store) (sid : String) : Option Nat :=
  let m := maxOrderIdFor st sid
  if m = 0 then none else some m

/-- `AUTOINCREMENT` id for a fresh `orders` row. -/
def nextOrderId (st : Store) : Nat :=
  (st.orders.foldr (fun r m => max r.id m) 0) + 1

/-- `AUTOINCREMENT` id for a fresh `order_tickets` row. -/
def nextTicketId (st : Store) : Nat :=
  (st.tickets.foldr (fun r m => max r.id m) 0) + 1

/-- `_create_order_header(session_id, table, items)`; returns the new store
and `lastrowid`. -/
def _create_order_header (st : Store) (sid : String) (table : String)
    (items : List RawItem) (now : Nat) : Store × Nat :=
  let nid := nextOrderId st
  ({ st with orders := st.orders ++
      [{ id := nid, sessionId := sid, tableNum := table, time := now,
         items := items, status := "new" }] }, nid)

/-- `_append_items_to_header(order_id, table, new_items)`. -/
def _append_items_to_header (st : Store) (oid : Nat) (table : String)
    (newItems : List RawItem) : Store :=
  { st with orders := st.orders.map (fun r =>
      if r.id == oid then
        { r with items := r.items ++ newItems, tableNum := table }
      else r) }

/-- `_get_open_new_ticket(order_id)`: the ticket of this order with status
`"new"` having the greatest id (`ORDER BY id DESC LIMIT 1`). -/
def _get_open_new_ticket (st : Store) (oid : Nat) : Option TicketRow :=
  (st.tickets.filter (fun t => t.orderId == oid && t.status == "new")).foldl
    (fun acc t =>
      match acc with
      | none => some t
      | some a => if a.id < t.id then some t else some a) none

/-- `SELECT COALESCE(MAX(batch_no), 0) FROM order_tickets WHERE order_id=?`. -/
def maxBatchNoFor (st : Store) (oid : Nat) : Nat :=
  st.tickets.foldr (fun t m => if t.orderId == oid then max t.batchNo m else m) 0

/-- `_get_next_batch_no(order_id)`. -/
def _get_next_batch_no (st : Store) (oid : Nat) : Nat :=
  maxBatchNoFor st oid + 1

/-- `_create_ticket(order_id, session_id, table, items, batch_no)`. -/
def _create_ticket (st : Store) (oid : Nat) (sid : String) (table : String)
    (items : List RawItem) (batchNo : Nat) (now : Nat) : Store × Nat :=
  let tid := nextTicketId st
  ({ st with tickets := st.tickets ++
      [{ id := tid, orderId := oid, sessionId := sid, tableNum := table,
         time := now, items := items, status := "new", batchNo := batchNo }] },
   tid)

/-- `_merge_into_ticket(ticket_id, merged_items)`. -/
def _merge_into_ticket (st : Store) (tid : Nat) (mergedItems : List RawItem)
    (now : Nat) : Store :=
  { st with tickets := st.tickets.map (fun t =>
      if t.id == tid then { t with items := mergedItems, time := now } else t) }

/-- `update_ticket_status(ticket_id, status)`: an unconditional UPDATE;
returns whether any row matched (`rowcount > 0`). -/
def update_ticket_status (st : Store) (tid : Nat) (status : String) :
    Store × Bool :=
  ({ st with tickets := st.tickets.map (fun t =>
      if t.id == tid then { t with status := status } else t) },
   st.tickets.any (fun t => t.id == tid))

/-- `get_session_id_by_ticket_id(ticket_id)`. -/
def get_session_id_by_ticket_id (st : Store) (tid : Nat) : Option String :=
  (st.tickets.find? (fun t => t.id == tid)).map (·.sessionId)

/-- `get_call_state()`. -/
def get_call_state (st : Store) : String × Nat :=
  (st.callCode, st.callUpdatedAt)

/-- `set_call_code(code)`. -/
def set_call_code (st : Store) (code : String) (now : Nat) : Store :=
  { st with callCode := pyStrip code, callUpdatedAt := now }

/-- Result payload of `submit_cart_create_or_merge_ticket`. -/
structure SubmitResult where
  orderId : Nat
  ticketId : Nat
  batchNo : Nat
  merged : Bool

/-- `get_or_create_order_id_for_session(session_id, table, items_for_first)`. -/
def get_or_create_order_id_for_session (st : Store) (sid : String)
    (table : String) (itemsForFirst : List RawItem) (now : Nat) :
    Store × Nat :=
  let st0 := ensure_session st sid now false
  match pyOptNat (_get_session_order_id st0 sid) with
  | some oid => (st0, oid)
  | none =>
    match _find_existing_order_for_session st0 sid with
    | some existing => (_set_session_order_id st0 sid existing, existing)
    | none =>
      let (st1, newOid) := _create_order_header st0 sid table itemsForFirst now
      (_set_session_order_id st1 sid newOid, newOid)

/-- `submit_cart_create_or_merge_ticket(session_id, table, cart)`.  Returns
`none` (Python `None`) when the normalized cart is empty; partial because
normalization can raise. -/
def submit_cart_create_or_merge_ticket (st : Store) (sid : String)
    (table : String) (cart : List RawItem) (now : Nat) (seed : Nat) :
    Except Unit (Store × Option SubmitResult) :=
  match normalizeList seed cart with
  | .error e => .error e
  | .ok cartItems =>
    if cartItems.isEmpty then .ok (st, none)
    else
      let (st1, orderId) :=
        get_or_create_order_id_for_session st sid table cartItems now
      let st2 := _append_items_to_header st1 orderId table cartItems
      match _get_open_new_ticket st2 orderId with
      | some tk =>
          let mergedItems := tk.items ++ cartItems
          let st3 := _merge_into_ticket st2 tk.id mergedItems now
          .ok (st3, some { orderId := orderId, ticketId := tk.id,
                           batchNo := if tk.batchNo = 0 then 1 else tk.batchNo,
                           merged := true })
      | none =>
          let batchNo := _get_next_batch_no st2 orderId
          let (st3, ticketId) :=
            _create_ticket st2 orderId sid table cartItems batchNo now
          .ok (st3, some { orderId := orderId, ticketId := ticketId,
                           batchNo := batchNo, merged := false })

/-- The order view assembled by `load_order_by_session`. -/
structure OrderView where
  id : Nat
  sessionId : String
  tableNo : String
  time : Nat
  status : String
  items : List RawItem
  total : Int

/-- `load_order_by_session(session_id)`.  The store component reflects the
binding write (`_set_session_order_id`) that happens on the fallback path;
the view is partial because the stored items are re-normalized. -/
def load_order_by_session (st : Store) (sid : String) (seed : Nat) :
    Store × Except Unit (Option OrderView) :=
  let bound := pyOptNat (_get_session_order_id st sid)
  let step :=
    match bound with
    | some oid => some (st, oid)
    | none =>
      match _find_existing_order_for_session st sid with
      | none => none
      | some oid => some (_set_session_order_id st sid oid, oid)
  match step with
  | none => (st, .ok none)
  | some (st1, oid) =>
    match st1.orders.find? (fun r => r.id == oid) with
    | none => (st1, .ok none)
    | some row =>
      (st1,
        match normalizeList seed row.items with
        | .error e => .error e
        | .ok items =>
          match calc_total items with
          | .error e => .error e
          | .ok total =>
            .ok (some { id := row.id, sessionId := row.sessionId,
                        tableNo := row.tableNum, time := row.time,
                        status := row.status, items := items,
                        total := total }))

/-- Outcome of the `/api/orders/<ticket_id>/status` route. -/
inductive ApiResult where
  | ok : ApiResult
  | invalidStatus : ApiResult
  | notFound : ApiResult
deriving DecidableEq

/-- `update_order_status_api(ticket_id)` with JSON body `{"status": raw}`:
normalizes the value, rejects unknown values before any lookup or write,
reports a missed UPDATE as not-found, and on `"done"` pushes the ticket's
session code into the call state. -/
def update_order_status_api (st : Store) (ticketId : Nat) (raw : String)
    (now : Nat) : Store × ApiResult :=
  let status := pyLower (pyStrip raw)
  if status ∈ ORDER_STATUS_ALLOWED then
    let (st1, ok) := update_ticket_status st ticketId status
    if ok then
      if status = "done" then
        match get_session_id_by_ticket_id st1 ticketId with
        | some sid =>
            if sid = "" then (st1, .ok)
            else (set_call_code st1 sid now, .ok)
        | none => (st1, .ok)
      else (st1, .ok)
    else (st1, .notFound)
  else (st, .invalidStatus)

/-- One entry of `locks_in_room[sid]`: `{"bySid": …, "byName": …, "ts": …}`. -/
structure LockInfo where
  bySid : String
  byName : String
  ts : Nat

/-- Insert-or-replace in an association list (Python dict assignment). -/
def assocSet {α : Type} (m : List (String × α)) (k : String) (v : α) :
    List (String × α) :=
  if m.any (fun p => p.1 == k) then
    m.map (fun p => if p.1 == k then (k, v) else p)
  else m ++ [(k, v)]

/-- Lookup in an association list (Python `dict.get`). -/
def assocGet {α : Type} (m : List (String × α)) (k : String) : Option α :=
  (m.find? (fun p => p.1 == k)).map (·.2)

/-- Deletion from an association list (Python `del d[k]`). -/
def assocDel {α : Type} (m : List (String × α)) (k : String) :
    List (String × α) :=
  m.filter (fun p => p.1 != k)

/-- Process state: the durable store plus the in-memory `users_in_room`
(session → connection → nickname) and `locks_in_room`
(session → line id → lock) maps. -/
structure World where
  store : Store
  users : List (String × List (String × String))
  locks : List (String × List (String × LockInfo))

/-- The messages a handler emits (transport payloads reduced to the fields
the claims observe; the full-state broadcast carries the freshly re-read
cart). -/
inductive Event where
  | sessionState (sid : String) (cart : List RawItem)
  | lockDenied (lineId : String) (byName : String)
  | lockUpdate (lineId : String) (byName : String)
  | lockRemove (lineId : String)
  | opRejected (reason : String)
  | submitResult (ok : Bool) (msg : String) (res : Option SubmitResult)
  | orderDetailResult (found : Bool) (order : Option OrderView)

/-- `broadcast_state(session_id)` reduced to the emitted event. -/
def broadcast_state (st : Store) (sid : String) : Event :=
  .sessionState sid (get_session_cart st sid)

/-- `str((data.get("nickname") or "訪客")).strip()[:12] or "訪客"`. -/
def cleanNickname (raw : String) : String :=
  let base := if raw = "" then "訪客" else raw
  let t := (pyStrip base).take 12
  if t = "" then "訪客" else t

/-- `on_join(data)` (socket event `join_session`): note that it calls
`ensure_session` unconditionally and never rejects. -/
def on_join (w : World) (connId : String) (sessionIdRaw nicknameRaw : String)
    (now : Nat) : World × List Event :=
  let sid := pyStrip sessionIdRaw
  let name := cleanNickname nicknameRaw
  let st1 := ensure_session w.store sid now false
  let room := (assocGet w.users sid).getD []
  let users' := assocSet w.users sid (assocSet room connId name)
  let w' := { w with store := st1, users := users' }
  (w', [broadcast_state st1 sid])

/-- `_find_item_idx(cart, line_id)` as an optional index. -/
def _find_item_idx (cart : List RawItem) (lineId : String) : Option Nat :=
  cart.findIdx? (fun it => pyStr (pyGet it.lineId (.pstr "")) == lineId)

/-- In-place update of the i-th element (`cart[idx][…] = …`). -/
def listModify {α : Type} (l : List α) (i : Nat) (f : α → α) : List α :=
  match l, i with
  | [], _ => []
  | x :: xs, 0 => f x :: xs
  | x :: xs, n + 1 => x :: listModify xs n f

/-- The lock currently recorded for `(sid, lineId)`. -/
def lockFor (w : World) (sid lineId : String) : Option LockInfo :=
  assocGet ((assocGet w.locks sid).getD []) lineId

/-- `on_cart_set_qty(data)`: `qty = max(1, int(data.get("qty") or 1))` runs
first (and can raise); then empty-field guard, lock-ownership check,
`ensure_session`, index lookup, write-through save, broadcast. -/
def on_cart_set_qty (w : World) (connId : String)
    (sessionIdRaw lineIdRaw : String) (qtyRaw : PyVal) (now seed : Nat) :
    Except Unit (World × List Event) :=
  let sid := pyStrip sessionIdRaw
  let lineId := pyStrip lineIdRaw
  match pyInt (if pyTruthy qtyRaw then qtyRaw else .pint 1) with
  | .error e => .error e
  | .ok qty0 =>
    let qty := max 1 qty0
    if sid = "" ∨ lineId = "" then .ok (w, [])
    else
      let locked :=
        match lockFor w sid lineId with
        | some l => if l.bySid ≠ connId then some l.byName else none
        | none => none
      match locked with
      | some holder => .ok (w, [.opRejected ("被 " ++ holder ++ " 鎖定中")])
      | none =>
        let st1 := ensure_session w.store sid now false
        let cart := get_session_cart st1 sid
        match _find_item_idx cart lineId with
        | none => .ok ({ w with store := st1 }, [.opRejected "找不到項目"])
        | some idx =>
          let cart' := listModify cart idx
            (fun it => { it with qty := some (.pint qty) })
          match save_session_cart st1 sid cart' now seed with
          | .error e => .error e
          | .ok st2 =>
            .ok ({ w with store := st2 }, [broadcast_state st2 sid])

/-- `on_cart_set_remark(data)`. -/
def on_cart_set_remark (w : World) (connId : String)
    (sessionIdRaw lineIdRaw remarkRaw : String) (now seed : Nat) :
    Except Unit (World × List Event) :=
  let sid := pyStrip sessionIdRaw
  let lineId := pyStrip lineIdRaw
  let remark := pyStrip remarkRaw
  if sid = "" ∨ lineId = "" then .ok (w, [])
  else
    let locked :=
      match lockFor w sid lineId with
      | some l => if l.bySid ≠ connId then some l.byName else none
      | none => none
    match locked with
    | some holder => .ok (w, [.opRejected ("被 " ++ holder ++ " 鎖定中")])
    | none =>
      let st1 := ensure_session w.store sid now false
      let cart := get_session_cart st1 sid
      match _find_item_idx cart lineId with
      | none => .ok ({ w with store := st1 }, [.opRejected "找不到項目"])
      | some idx =>
        let cart' := listModify cart idx
          (fun it => { it with remark := some (.pstr remark) })
        match save_session_cart st1 sid cart' now seed with
        | .error e => .error e
        | .ok st2 =>
          .ok ({ w with store := st2 }, [broadcast_state st2 sid])

/-- `on_cart_remove(data)`: same rejection semantics; removing a line also
drops any lock held on it (emitting `lock_remove`). -/
def on_cart_remove (w : World) (connId : String)
    (sessionIdRaw lineIdRaw : String) (now seed : Nat) :
    Except Unit (World × List Event) :=
  let sid := pyStrip sessionIdRaw
  let lineId := pyStrip lineIdRaw
  if sid = "" ∨ lineId = "" then .ok (w, [])
  else
    let locked :=
      match lockFor w sid lineId with
      | some l => if l.bySid ≠ connId then some l.byName else none
      | none => none
    match locked with
    | some holder => .ok (w, [.opRejected ("被 " ++ holder ++ " 鎖定中")])
    | none =>
      let st1 := ensure_session w.store sid now false
      let cart := get_session_cart st1 sid
      match _find_item_idx cart lineId with
      | none => .ok ({ w with store := st1 }, [.opRejected "找不到項目"])
      | some idx =>
        let cart' := cart.eraseIdx idx
        let hadLock :=
          match assocGet w.locks sid with
          | some room => room.any (fun p => p.1 == lineId)
          | none => false
        let locks' :=
          if hadLock then
            assocSet w.locks sid (assocDel ((assocGet w.locks sid).getD []) lineId)
          else w.locks
        let lockEvents := if hadLock then [Event.lockRemove lineId] else []
        match save_session_cart st1 sid cart' now seed with
        | .error e => .error e
        | .ok st2 =>
          .ok ({ w with store := st2, locks := locks' },
               lockEvents ++ [broadcast_state st2 sid])

/-- `on_submit(data)` (socket event `submit_cart_as_order`). -/
def on_submit (w : World) (sessionIdRaw tableRaw : String) (now seed : Nat) :
    Except Unit (World × List Event) :=
  let sid := pyStrip sessionIdRaw
  let table := tableRaw
  if sid = "" then .ok (w, [.submitResult false "missing sessionId" none])
  else
    let st1 := ensure_session w.store sid now false
    let cart := get_session_cart st1 sid
    if cart.isEmpty then
      .ok ({ w with store := st1 }, [.submitResult false "cart empty" none])
    else
      match submit_cart_create_or_merge_ticket st1 sid table cart now seed with
      | .error e => .error e
      | .ok (st2, none) =>
          .ok ({ w with store := st2 }, [.submitResult false "submit failed" none])
      | .ok (st2, some res) =>
        match save_session_cart st2 sid [] now seed with
        | .error e => .error e
        | .ok st3 =>
          let locks' := assocSet w.locks sid []
          let (st4, detail) := load_order_by_session st3 sid seed
          match detail with
          | .error e => .error e
          | .ok orderView =>
            .ok ({ w with store := st4, locks := locks' },
                 [.submitResult true "" (some res),
                  .orderDetailResult true orderView,
                  broadcast_state st4 sid])

/-- `load_all_tickets`-style count of open `"new"` tickets of one order. -/
def countNewTickets (st : Store) (oid : Nat) : Nat :=
  (st.tickets.filter (fun t => t.orderId == oid && t.status == "new")).length

/-- The spec's per-order invariant: at most one ticket in status `"new"`. -/
def AtMostOneNew (st : Store) (oid : Nat) : Prop :=
  countNewTickets st oid ≤ 1

/-- Order `O` is the pinned order of code `S` in this order list: its row
exists and no order of `S` has a larger id (so the MAX-id fallback re-binds
to `O`). -/
def OrderPinL (l : List OrderRow) (S : String) (O : Nat) : Prop :=
  (∃ r ∈ l, r.sessionId = S ∧ r.id = O) ∧ (∀ r ∈ l, r.sessionId = S → r.id ≤ O)

/-- Every session row of code `S` is either unbound or bound to `O`. -/
def BindClauseL (l : List SessionRow) (S : String) (O : Nat) : Prop :=
  ∀ s ∈ l, s.sessionId = S → s.orderId = none ∨ s.orderId = some O

/-- Stable order identity of session `S` pinned to order id `O`. -/
def OrderIdentity (st : Store) (S : String) (O : Nat) : Prop :=
  1 ≤ O ∧ OrderPinL st.orders S O ∧ BindClauseL st.sessions S O

/-- `true` iff a Python-`int` conversion of this optional field succeeds
(absent fields use the code's integer defaults, so they are fine). -/
def intFieldOk (f : Option PyVal) : Bool :=
  match f with
  | none => true
  | some v => match pyInt v with | .ok _ => true | .error _ => false

/-- `true` iff an add-on entry is harmless to `calc_total`: non-dicts are
skipped, dicts must carry an int-convertible (or absent) `price`. -/
def addOnEntryOk (a : PyVal) : Bool :=
  match a with
  | .pdict fs =>
      (match pyInt (dictGet fs "price" (.pint 0)) with
       | .ok _ => true | .error _ => false)
  | _ => true

/-- All numeric material of a line is well-formed or missing (`addOns`, when
present, must be an actual list). -/
def totalFieldsOk (it : RawItem) : Bool :=
  intFieldOk it.price && intFieldOk it.qty &&
  (match it.addOns with
   | none => true
   | some (.plist xs) => xs.all addOnEntryOk
   | some _ => false)

/-- Modelled from the spec: the value of one add-on in the spec's total
formula — its `price`, with malformed or missing prices treated as 0 and
non-dict entries contributing 0. -/
def specAddOnPrice (a : PyVal) : Int :=
  match a with
  | .pdict fs => (match pyInt (dictGet fs "price" (.pint 0)) with
                  | .ok n => n | .error _ => 0)
  | _ => 0

/-- Modelled from the spec: an optional numeric field with missing values
defaulted and malformed values treated as 0. -/
def specIntOr (f : Option PyVal) (dflt : Int) : Int :=
  match f with
  | none => dflt
  | some v => match pyInt v with | .ok n => n | .error _ => 0

/-- Modelled from the spec: the total add-on price of one line (sum of the
add-ons' prices; anything that is not a list of add-ons contributes 0). -/
def specAddOnTotal (f : Option PyVal) : Int :=
  match f with
  | some (.plist xs) => (xs.map specAddOnPrice).sum
  | _ => 0

/-- Modelled from the spec (§4.1): `computeTotal(lines)` = sum over lines of
`(unitPrice + sum(addOn.price)) * quantity`, malformed/missing numeric
fields treated as 0 and missing qty as 1.  Written from the spec's words, to
be compared with the source's `calc_total`. -/
def computeTotal_spec (items : List RawItem) : Int :=
  items.foldr (fun it acc =>
    (specIntOr it.price 0 + specAddOnTotal it.addOns) * specIntOr it.qty 1 + acc) 0

/-- A well-formed tea line (spec example scenario 1). -/
def itemTea : RawItem :=
  { name := some (.pstr "Tea"), price := some (.pint 30), qty := some (.pint 2) }

/-- A well-formed fries line (spec example scenario 2). -/
def itemFries : RawItem :=
  { name := some (.pstr "Fries"), price := some (.pint 50), qty := some (.pint 1) }

/-- A line whose price is a non-numeric string (Python `int("abc")` raises). -/
def badPriceItem : RawItem := { price := some (.pstr "abc") }

/-- A line with a negative unit price. -/
def negPriceItem : RawItem := { price := some (.pint (-5)) }

/-- A line whose `addOns` value is a bare string, not a list of dicts. -/
def rawAddOnsItem : RawItem := { addOns := some (.pstr "zzz") }

/-- Store projection of a submission outcome (used by concrete scenarios). -/
def storeOfSubmit (r : Except Unit (Store × Option SubmitResult)) : Store :=
  match r with
  | .ok (s, _) => s
  | .error _ => Store.empty

/-- Scenario: first submission for code 4821 on the empty store — creates
order 1 and ticket 1 (batch 1). -/
def scnStore1 : Store :=
  storeOfSubmit (submit_cart_create_or_merge_ticket Store.empty "4821" "" [itemTea] 100 0)

/-- Scenario: ticket 1 moved to `"making"`. -/
def scnStore2 : Store := (update_order_status_api scnStore1 1 "making" 110).1

/-- Scenario: second submission — opens ticket 2 (batch 2, status new). -/
def scnStore3 : Store :=
  storeOfSubmit (submit_cart_create_or_merge_ticket scnStore2 "4821" "" [itemFries] 120 10)

/-- Scenario: the status API sets ticket 1 back to `"new"` — now tickets 1
and 2 of order 1 are both `"new"`. -/
def scnStore4 : Store := (update_order_status_api scnStore3 1 "new" 130).1

/-- A lone ticket already in the terminal status `"done"`. -/
def doneTicket : TicketRow :=
  { id := 1, orderId := 1, sessionId := "4821", tableNum := "", time := 0,
    items := [], status := "done", batchNo := 1 }

/-- A store whose only ticket is `doneTicket`. -/
def stDone : Store := { sessions := [], orders := [], tickets := [doneTicket],
                        callCode := "", callUpdatedAt := 0 }

/-- A lone ticket in status `"making"` owned by session 4821. -/
def makingTicket : TicketRow :=
  { id := 7, orderId := 3, sessionId := "4821", tableNum := "A1", time := 0,
    items := [], status := "making", batchNo := 2 }

/-- A store whose only ticket is `makingTicket`. -/
def stMaking : Store := { sessions := [], orders := [], tickets := [makingTicket],
                          callCode := "", callUpdatedAt := 0 }

/-- The boot state of the process: empty database, nobody connected. -/
def emptyWorld : World := { store := Store.empty, users := [], locks := [] }

/-- Cart line `a`, added by Xena. -/
def lineA : RawItem :=
  { lineId := some (.pstr "a"), name := some (.pstr "Tea"),
    price := some (.pint 30), qty := some (.pint 1),
    addedBy := some (.pstr "Xena") }

/-- Cart line `b`, whose stored `addedBy` is `null` (the value
`normalize_cart_item` itself produces for an anonymous line). -/
def lineB : RawItem :=
  { lineId := some (.pstr "b"), name := some (.pstr "Cake"),
    price := some (.pint 20), qty := some (.pint 1),
    addedBy := some .pnone }

/-- Session 4821, active until tick 1000, cart `[lineA, lineB]`. -/
def lockSessionRow : SessionRow :=
  { sessionId := "4821", cart := [lineA, lineB], createdAt := 0,
    expiresAt := 1000, updatedAt := 0, orderId := none }

/-- World for the locking scenario: connections X (Xena) and Y (Yuri) are in
room 4821 and X holds the lock on line `a`. -/
def lockWorld : World :=
  { store := { sessions := [lockSessionRow], orders := [], tickets := [],
               callCode := "", callUpdatedAt := 0 },
    users := [("4821", [("X", "Xena"), ("Y", "Yuri")])],
    locks := [("4821", [("a", { bySid := "X", byName := "Xena", ts := 0 })])] }

/-- The world after lock-holder X sets the quantity of line `a` to 3. -/
def lockWorldAfterX : World :=
  match on_cart_set_qty lockWorld "X" "4821" "a" (.pint 3) 10 50 with
  | .ok (w, _) => w
  | .error _ => lockWorld

/-- An unbound session row for code 4821 (order_id NULL). -/
def unboundSessionRow : SessionRow :=
  { sessionId := "4821", cart := [], createdAt := 0, expiresAt := 1000,
    updatedAt := 0, orderId := none }

/-- Legacy store: session 4821 unbound, two legacy orders 2 and 5 recorded
under that code. -/
def stLegacy : Store :=
  { sessions := [unboundSessionRow],
    orders := [{ id := 2, sessionId := "4821", tableNum := "", time := 10,
                 items := [itemTea], status := "new" },
               { id := 5, sessionId := "4821", tableNum := "B", time := 20,
                 items := [itemFries], status := "new" }],
    tickets := [], callCode := "", callUpdatedAt := 0 }

/-- The store after a follow-up submission against `scnStore1`. -/
def scnStoreMerge : Store :=
  storeOfSubmit (submit_cart_create_or_merge_ticket scnStore1 "4821" "" [itemFries] 200 50)

/-- World projection of a handler outcome. -/
def worldOfHandler (r : Except Unit (World × List Event)) (d : World) : World :=
  match r with
  | .ok (w, _) => w
  | .error _ => d

/-- Emitted-events projection of a handler outcome. -/
def eventsOfHandler (r : Except Unit (World × List Event)) : List Event :=
  match r with
  | .ok (_, evs) => evs
  | .error _ => []

/-- The normalized form of `negPriceItem`. -/
def normNeg : RawItem :=
  match normalize_cart_item "u0" negPriceItem with
  | .ok it => it
  | .error _ => negPriceItem

/-- A world holding one active session 4821 with an empty cart. -/
def activeEmptyWorld : World :=
  { store := { sessions := [unboundSessionRow], orders := [], tickets := [],
               callCode := "", callUpdatedAt := 0 },
    users := [], locks := [] }

/-- Maximum of a list of naturals (0 for the empty list). -/
def maxNat (l : List Nat) : Nat := l.foldr max 0

theorem le_maxNat_of_mem {l : List Nat} {n : Nat} (h : n ∈ l) : n ≤ maxNat l := by
  induction l with
  | nil => cases h
  | cons a t ih =>
    rcases List.mem_cons.mp h with rfl | hm
    · exact Nat.le_max_left _ _
    · exact le_trans (ih hm) (Nat.le_max_right _ _)

theorem maxNat_le {l : List Nat} {O : Nat} (h : ∀ n ∈ l, n ≤ O) : maxNat l ≤ O := by
  induction l with
  | nil => exact Nat.zero_le _
  | cons a t ih =>
    exact Nat.max_le.mpr ⟨h a (List.mem_cons_self a t),
      ih (fun n hn => h n (List.mem_cons_of_mem a hn))⟩

theorem maxNat_mem_of_ne_zero {l : List Nat} (h : maxNat l ≠ 0) : maxNat l ∈ l := by
  induction l with
  | nil => exact absurd rfl h
  | cons a t ih =>
    rcases Nat.le_total a (maxNat t) with hle | hle
    · have hmax : maxNat (a :: t) = maxNat t := Nat.max_eq_right hle
      rw [hmax] at h ⊢
      exact List.mem_cons_of_mem a (ih h)
    · have hmax : maxNat (a :: t) = a := Nat.max_eq_left hle
      rw [hmax]
      exact List.mem_cons_self a t

theorem maxOrderIdFor_eq_maxNat (st : Store) (sid : String) :
    maxOrderIdFor st sid =
      maxNat ((st.orders.filter (fun r => r.sessionId == sid)).map (·.id)) := by
  unfold maxOrderIdFor maxNat
  induction st.orders with
  | nil => rfl
  | cons a t ih =>
    simp only [List.foldr_cons, List.filter_cons]
    by_cases h : a.sessionId = sid
    · simp only [h, beq_self_eq_true, if_true, List.map_cons, List.foldr_cons]
      rw [ih]
    · have h' : (a.sessionId == sid) = false := by simp [h]
      simp only [h', Bool.false_eq_true, if_false]
      exact ih

theorem nextOrderId_eq_maxNat (st : Store) :
    nextOrderId st = maxNat (st.orders.map (·.id)) + 1 := by
  unfold nextOrderId maxNat
  rw [List.foldr_map]

theorem nextTicketId_eq_maxNat (st : Store) :
    nextTicketId st = maxNat (st.tickets.map (·.id)) + 1 := by
  unfold nextTicketId maxNat
  rw [List.foldr_map]

theorem maxBatchNoFor_eq_maxNat (st : Store) (oid : Nat) :
    maxBatchNoFor st oid =
      maxNat ((st.tickets.filter (fun t => t.orderId == oid)).map (·.batchNo)) := by
  unfold maxBatchNoFor maxNat
  induction st.tickets with
  | nil => rfl
  | cons a t ih =>
    simp only [List.foldr_cons, List.filter_cons]
    by_cases h : a.orderId = oid
    · simp only [h, beq_self_eq_true, if_true, List.map_cons, List.foldr_cons]
      rw [ih]
    · have h' : (a.orderId == oid) = false := by simp [h]
      simp only [h', Bool.false_eq_true, if_false]
      exact ih

theorem filter_map_of_pres {α : Type} (g : α → α) (p : α → Bool)
    (hp : ∀ x, p (g x) = p x) (l : List α) :
    (l.map g).filter p = (l.filter p).map g := by
  induction l with
  | nil => rfl
  | cons a t ih =>
    simp only [List.map_cons, List.filter_cons, hp a]
    by_cases h : p a = true
    · simp [h, ih]
    · simp [h, ih]

theorem find?_map_of_pres {α : Type} (g : α → α) (p : α → Bool)
    (hp : ∀ x, p (g x) = p x) (l : List α) :
    (l.map g).find? p = (l.find? p).map g := by
  induction l with
  | nil => rfl
  | cons a t ih =>
    simp only [List.map_cons, List.find?_cons, hp a]
    by_cases h : p a = true
    · simp [h]
    · simp [h, ih]

theorem assocGet_assocSet_self {α : Type} (m : List (String × α)) (k : String)
    (v : α) : assocGet (assocSet m k v) k = some v := by
  unfold assocSet
  by_cases hany : m.any (fun p => p.1 == k) = true
  · simp only [hany, if_true]
    induction m with
    | nil => simp at hany
    | cons a t ih =>
      by_cases hk : a.1 = k
      · simp [assocGet, List.find?_cons, hk]
      · have hk' : (a.1 == k) = false := by simp [hk]
        simp only [List.map_cons, hk', Bool.false_eq_true, if_false]
        have : t.any (fun p => p.1 == k) = true := by
          simp only [List.any_cons, hk', Bool.false_or] at hany
          exact hany
        simpa [assocGet, List.find?_cons, hk'] using ih this
  · simp only [hany, if_false]
    induction m with
    | nil => simp [assocGet]
    | cons a t ih =>
      simp only [List.any_cons, Bool.or_eq_true, not_or] at hany
      have hk' : (a.1 == k) = false := by
        cases h : (a.1 == k) <;> simp_all
      simp only [List.cons_append]
      have : assocGet (t ++ [(k, v)]) k = some v := ih hany.2
      simpa [assocGet, List.find?_cons, hk'] using this

theorem openNew_isSome_of_ne_nil {l : List TicketRow}
    (h : l ≠ []) (acc : Option TicketRow) :
    (l.foldl (fun acc t =>
      match acc with
      | none => some t
      | some a => if a.id < t.id then some t else some a) acc).isSome := by
  induction l generalizing acc with
  | nil => exact absurd rfl h
  | cons a t ih =>
    simp only [List.foldl_cons]
    by_cases ht : t = []
    · subst ht
      cases acc <;> simp [List.foldl_nil]
      split <;> simp
    · exact ih ht _

theorem openNew_mem {l : List TicketRow} {tk : TicketRow} :
    ∀ {acc : Option TicketRow},
    l.foldl (fun acc t =>
      match acc with
      | none => some t
      | some a => if a.id < t.id then some t else some a) acc = some tk →
    tk ∈ l ∨ acc = some tk := by
  induction l with
  | nil => intro acc h; exact Or.inr h
  | cons a t ih =>
    intro acc h
    simp only [List.foldl_cons] at h
    rcases ih h with hm | hacc
    · exact Or.inl (List.mem_cons_of_mem a hm)
    · cases acc with
      | none =>
        simp only at hacc
        cases hacc
        exact Or.inl (List.mem_cons_self _ _)
      | some b =>
        simp only at hacc
        by_cases hlt : b.id < a.id
        · rw [if_pos hlt] at hacc
          cases hacc
          exact Or.inl (List.mem_cons_self _ _)
        · rw [if_neg hlt] at hacc
          exact Or.inr hacc

theorem get_open_new_ticket_none_iff (st : Store) (oid : Nat) :
    _get_open_new_ticket st oid = none ↔
      st.tickets.filter (fun t => t.orderId == oid && t.status == "new") = [] := by
  unfold _get_open_new_ticket
  constructor
  · intro h
    by_contra hne
    have := openNew_isSome_of_ne_nil hne (none : Option TicketRow)
    rw [h] at this
    simp at this
  · intro h
    rw [h]
    rfl

theorem get_open_new_ticket_spec {st : Store} {oid : Nat} {tk : TicketRow}
    (h : _get_open_new_ticket st oid = some tk) :
    tk ∈ st.tickets ∧ tk.orderId = oid ∧ tk.status = "new" := by
  unfold _get_open_new_ticket at h
  rcases openNew_mem h with hm | hacc
  · have hf := List.mem_filter.mp hm
    refine ⟨hf.1, ?_, ?_⟩
    · have := hf.2
      simp only [Bool.and_eq_true, beq_iff_eq] at this
      exact this.1
    · have := hf.2
      simp only [Bool.and_eq_true, beq_iff_eq] at this
      exact this.2
  · cases hacc

theorem find_ticket_by_id_of_nodup {l : List TicketRow} {t : TicketRow}
    {tid : Nat} (hnd : (l.map (·.id)).Nodup) (hm : t ∈ l) (hid : t.id = tid) :
    l.find? (fun x => x.id == tid) = some t := by
  induction l with
  | nil => cases hm
  | cons a rest ih =>
    simp only [List.map_cons, List.nodup_cons] at hnd
    by_cases ha : a.id = tid
    · rw [List.find?_cons_of_pos _ (by simp [ha])]
      rcases List.mem_cons.mp hm with rfl | hmr
      · rfl
      · exfalso
        apply hnd.1
        rw [ha, ← hid]
        exact List.mem_map.mpr ⟨t, hmr, rfl⟩
    · rw [List.find?_cons_of_neg _ (by simp [ha])]
      rcases List.mem_cons.mp hm with rfl | hmr
      · exact absurd hid ha
      · exact ih hnd.2 hmr

theorem map_noop {α : Type} {l : List α} {f : α → α}
    (h : ∀ a ∈ l, f a = a) : l.map f = l := by
  induction l with
  | nil => rfl
  | cons a t ih =>
    simp only [List.map_cons]
    rw [h a (List.mem_cons_self a t), ih (fun x hx => h x (List.mem_cons_of_mem a hx))]

theorem map_field_of_pres {α β : Type} (g : α → α) (fld : α → β)
    (h : ∀ x, fld (g x) = fld x) (l : List α) :
    (l.map g).map fld = l.map fld := by
  rw [List.map_map]
  induction l with
  | nil => rfl
  | cons a t ih => simp only [List.map_cons, Function.comp_apply, h a, ih]

theorem intField_eval {f : Option PyVal} {d : Int} (h : intFieldOk f = true) :
    pyInt (pyGet f (.pint d)) = .ok (specIntOr f d) := by
  cases f with
  | none => rfl
  | some v =>
    unfold intFieldOk at h
    cases hv : pyInt v with
    | error e => simp [hv] at h
    | ok n => simp [pyGet, specIntOr, hv]

theorem addOnsSum_eq {xs : List PyVal} (h : xs.all addOnEntryOk = true) :
    addOnsSum xs = .ok ((xs.map specAddOnPrice).sum) := by
  induction xs with
  | nil => rfl
  | cons a t ih =>
    simp only [List.all_cons, Bool.and_eq_true] at h
    obtain ⟨h1, h2⟩ := h
    cases a with
    | pdict fs =>
      unfold addOnEntryOk at h1
      cases hp : pyInt (dictGet fs "price" (.pint 0)) with
      | error e => simp [hp] at h1
      | ok n =>
        simp only [addOnsSum, hp, ih h2, List.map_cons, List.sum_cons,
          specAddOnPrice]
    | pnone => simpa [addOnsSum, specAddOnPrice] using ih h2
    | pint n => simpa [addOnsSum, specAddOnPrice] using ih h2
    | pbool b => simpa [addOnsSum, specAddOnPrice] using ih h2
    | pstr s => simpa [addOnsSum, specAddOnPrice] using ih h2
    | plist ys => simpa [addOnsSum, specAddOnPrice] using ih h2

/-- **C4** (amended): on every cart-line list whose numeric fields are
present-and-well-formed or absent, `calc_total` succeeds and returns exactly
the spec's total `(unitPrice + sum(addOn.price)) * quantity` with absent
prices defaulting to 0 and absent quantities to 1.  (The unrestricted claim
fails: see the counterexample — a malformed numeric string makes
`calc_total` raise instead of being treated as 0.) -/
theorem c4_calc_total_refines (items : List RawItem)
    (h : items.all totalFieldsOk = true) :
    calc_total items = .ok (computeTotal_spec items) := by
  induction items with
  | nil => rfl
  | cons it rest ih =>
    simp only [List.all_cons, Bool.and_eq_true] at h
    obtain ⟨h1, h2⟩ := h
    unfold totalFieldsOk at h1
    simp only [Bool.and_eq_true] at h1
    obtain ⟨⟨hpOk, hqOk⟩, haOk⟩ := h1
    have hrest := ih h2
    have hp := @intField_eval it.price 0 hpOk
    have hq := @intField_eval it.qty 1 hqOk
    cases hao : it.addOns with
    | none =>
      simp only [calc_total, hao, hp, hq, hrest, computeTotal_spec,
        List.foldr_cons, specAddOnTotal]
      simp only [pyGet, Option.getD, pyIter, addOnsSum]
    | some v =>
      rw [hao] at haOk
      cases v with
      | plist xs =>
        simp only [calc_total, hao, hp, hq, hrest, computeTotal_spec,
          List.foldr_cons, specAddOnTotal]
        simp only [pyGet, Option.getD, pyIter, addOnsSum_eq haOk]
      | pnone => simp at haOk
      | pint n => simp at haOk
      | pbool b => simp at haOk
      | pstr s => simp at haOk
      | pdict fs => simp at haOk

/-- **C4** counterexample: a line whose price is the non-numeric string
`"abc"` makes `calc_total` raise (`int("abc")` raises `ValueError`), while
the claim demands it return the formula value (0 here) without failing. -/
theorem c4_counterexample :
    calc_total [badPriceItem] = .error () ∧
    computeTotal_spec [badPriceItem] = 0 := ⟨rfl, rfl⟩

/-- **C4** witness: the refinement theorem evaluated on two concrete lines. -/
theorem c4_witness :
    ([itemTea, itemFries].all totalFieldsOk = true) ∧
    calc_total [itemTea, itemFries] = .ok 110 :=
  ⟨rfl, c4_calc_total_refines [itemTea, itemFries] rfl⟩

/-- **C5** (amended): `normalize_cart_item` coerces the quantity to an
integer at least 1, and coerces the line's unit price to an integer — but it
does *not* clamp the price to be non-negative, and it passes the `addOns`
value through entirely uncoerced (add-on prices are never touched). -/
theorem c5_normalize_amended (fresh : String) (item it' : RawItem)
    (h : normalize_cart_item fresh item = .ok it') :
    (∃ q : Int, it'.qty = some (.pint q) ∧ 1 ≤ q) ∧
    (∃ p : Int, it'.price = some (.pint p) ∧
      pyInt (pyGet item.price (.pint 0)) = .ok p) ∧
    it'.addOns = some (pyGet item.addOns (.plist [])) := by
  unfold normalize_cart_item at h
  cases hp : pyInt (pyGet item.price (.pint 0)) with
  | error e => rw [hp] at h; cases h
  | ok p =>
    rw [hp] at h
    cases hq : pyInt (pyGet item.qty (.pint 1)) with
    | error e => rw [hq] at h; cases h
    | ok q =>
      rw [hq] at h
      injection h with h'
      subst h'
      exact ⟨⟨max 1 q, rfl, le_max_left 1 q⟩, ⟨p, rfl, rfl⟩, rfl⟩

/-- **C5** counterexample: normalization keeps a negative unit price of −5
(the claim demands a non-negative integer), and returns the `addOns` value
untouched (the claim demands every add-on price be coerced). -/
theorem c5_counterexample :
    (normalize_cart_item "u0" negPriceItem).map (·.price) =
      .ok (some (.pint (-5))) ∧
    (normalize_cart_item "u0" rawAddOnsItem).map (·.addOns) =
      .ok (some (.pstr "zzz")) ∧
    (-5 : Int) < 0 := ⟨rfl, rfl, by decide⟩

/-- **C5** witness: the amended theorem applied to the negative-price line. -/
theorem c5_witness :
    normalize_cart_item "u0" negPriceItem = .ok normNeg ∧
    normNeg.qty = some (.pint 1) ∧
    normNeg.price = some (.pint (-5)) ∧
    normNeg.addOns = some (pyGet negPriceItem.addOns (.plist [])) :=
  ⟨rfl, rfl, rfl, (c5_normalize_amended "u0" negPriceItem normNeg rfl).2.2⟩

/-- **C3** (amended): the status-update interface normalizes the value and
checks only membership in `{new, making, done, cancelled}` — it never
inspects the ticket's current status, so *every* transition between the four
values is applied, including out of `"done"` and `"cancelled"`; values
outside the set are rejected with no state change. -/
theorem c3_status_update_unrestricted (st : Store) (tid : Nat) (raw : String)
    (now : Nat) :
    (pyLower (pyStrip raw) ∈ ORDER_STATUS_ALLOWED →
      (update_order_status_api st tid raw now).1.tickets =
        st.tickets.map (fun t =>
          if t.id == tid then { t with status := pyLower (pyStrip raw) }
          else t)) ∧
    (pyLower (pyStrip raw) ∉ ORDER_STATUS_ALLOWED →
      update_order_status_api st tid raw now = (st, .invalidStatus)) := by
  constructor
  · intro hmem
    unfold update_order_status_api update_ticket_status set_call_code
    rw [if_pos hmem]
    by_cases hok : (st.tickets.any fun t => t.id == tid) = true
    · simp only [hok, if_true]
      split
      · split
        · split
          · rfl
          · rfl
        · rfl
      · rfl
    · simp only [Bool.not_eq_true] at hok
      simp only [hok, Bool.false_eq_true, if_false]
  · intro hmem
    unfold update_order_status_api
    rw [if_neg hmem]

/-- **C3** counterexample: the API moves ticket 1 from the terminal status
`"done"` straight back to `"new"` — a transition the claim forbids. -/
theorem c3_counterexample :
    stDone.tickets.map (·.status) = ["done"] ∧
    (update_order_status_api stDone 1 "new" 50).2 = ApiResult.ok ∧
    (update_order_status_api stDone 1 "new" 50).1.tickets.map (·.status) =
      ["new"] := ⟨rfl, rfl, rfl⟩

/-- **C3** witness: the amended theorem applied to a concrete store — an
uppercase `" DONE "` is normalized and applied, `"burnt"` is rejected. -/
theorem c3_witness :
    (update_order_status_api stMaking 7 " DONE " 9).1.tickets =
      stMaking.tickets.map (fun t =>
        if t.id == 7 then { t with status := pyLower (pyStrip " DONE ") }
        else t) ∧
    update_order_status_api stMaking 7 "burnt" 9 = (stMaking, .invalidStatus) :=
  ⟨(c3_status_update_unrestricted stMaking 7 " DONE " 9).1 (by decide),
   (c3_status_update_unrestricted stMaking 7 "burnt" 9).2 (by decide)⟩

/-- **C6**: the `/api/orders/<id>/status` route accepts exactly the four
statuses `{new, making, done, cancelled}` (after trimming/lowercasing the
inbound value): anything else is rejected before any lookup or write, with
the store untouched; an id matching no ticket is reported not-found with the
store untouched; and a `"done"` transition sets the Call Announcer's code to
exactly the owning ticket's session code, observable through
`get_call_state`. -/
theorem c6_status_api_contract :
    (∀ (st : Store) (tid : Nat) (raw : String) (now : Nat),
      pyLower (pyStrip raw) ∉ ORDER_STATUS_ALLOWED →
      update_order_status_api st tid raw now = (st, .invalidStatus)) ∧
    (∀ (st : Store) (tid : Nat) (raw : String) (now : Nat),
      pyLower (pyStrip raw) ∈ ORDER_STATUS_ALLOWED →
      (∀ t ∈ st.tickets, t.id ≠ tid) →
      update_order_status_api st tid raw now = (st, .notFound)) ∧
    (∀ (st : Store) (tid : Nat) (raw : String) (now : Nat) (t : TicketRow),
      st.WF → t ∈ st.tickets → t.id = tid →
      pyLower (pyStrip raw) = "done" → t.sessionId ≠ "" →
      pyStrip t.sessionId = t.sessionId →
      (update_order_status_api st tid raw now).2 = .ok ∧
      (get_call_state (update_order_status_api st tid raw now).1).1 =
        t.sessionId) := by
  refine ⟨?_, ?_, ?_⟩
  · intro st tid raw now hmem
    unfold update_order_status_api
    rw [if_neg hmem]
  · intro st tid raw now hmem hnone
    unfold update_order_status_api update_ticket_status
    rw [if_pos hmem]
    have hany : (st.tickets.any fun t => t.id == tid) = false := by
      rw [List.any_eq_false]
      intro t ht
      simp [hnone t ht]
    have hmap : (st.tickets.map (fun t =>
        if t.id == tid then { t with status := pyLower (pyStrip raw) }
        else t)) = st.tickets := by
      apply map_noop
      intro t ht
      simp [hnone t ht]
    simp only [hany, Bool.false_eq_true, if_false, hmap]
  · intro st tid raw now t hWF hmem hid hdone hne htrim
    have hgid : ∀ x : TicketRow,
        ((fun x : TicketRow =>
          if x.id == tid then { x with status := "done" } else x) x).id =
          x.id := by
      intro x
      dsimp only
      split <;> rfl
    have hgsid : ∀ x : TicketRow,
        ((fun x : TicketRow =>
          if x.id == tid then { x with status := "done" } else x) x).sessionId =
          x.sessionId := by
      intro x
      dsimp only
      split <;> rfl
    have hany : (st.tickets.any fun x => x.id == tid) = true :=
      List.any_eq_true.mpr ⟨t, hmem, by simp [hid]⟩
    have hnd2 : ((st.tickets.map (fun x =>
        if x.id == tid then { x with status := "done" } else x)).map
          (·.id)).Nodup := by
      rw [map_field_of_pres _ _ hgid]
      exact hWF.2.2
    have hmem2 : (fun x : TicketRow =>
        if x.id == tid then { x with status := "done" } else x) t ∈
        st.tickets.map (fun x =>
          if x.id == tid then { x with status := "done" } else x) :=
      List.mem_map_of_mem _ hmem
    have hfind := find_ticket_by_id_of_nodup hnd2 hmem2 (by rw [hgid t, hid])
    unfold update_order_status_api update_ticket_status set_call_code
      get_session_id_by_ticket_id
    rw [hdone]
    rw [if_pos (by decide : ("done" : String) ∈ ORDER_STATUS_ALLOWED)]
    simp only [hany, if_true, if_pos rfl, hfind, Option.map_some', hgsid t]
    rw [if_neg hne]
    exact ⟨rfl, htrim⟩

/-- **C6** witness: the contract applied to a one-ticket store — bad value
rejected with no change, unknown id not-found, `"done"` announces 4821. -/
theorem c6_witness :
    update_order_status_api stMaking 7 "weird" 9 = (stMaking, .invalidStatus) ∧
    update_order_status_api stMaking 99 "done" 9 = (stMaking, .notFound) ∧
    (update_order_status_api stMaking 7 "done" 9).2 = .ok ∧
    (get_call_state (update_order_status_api stMaking 7 "done" 9).1).1 =
      "4821" :=
  ⟨c6_status_api_contract.1 stMaking 7 "weird" 9 (by decide),
   c6_status_api_contract.2.1 stMaking 99 "done" 9 (by decide)
     (by intro t ht; cases ht with
         | head => decide
         | tail _ h => cases h),
   (c6_status_api_contract.2.2 stMaking 7 "done" 9 makingTicket (by decide)
     (List.mem_cons_self _ _) rfl rfl (by decide) rfl).1,
   (c6_status_api_contract.2.2 stMaking 7 "done" 9 makingTicket (by decide)
     (List.mem_cons_self _ _) rfl rfl (by decide) rfl).2⟩

theorem ensure_session_frame (st : Store) (sid : String) (now : Nat)
    (f : Bool) :
    (ensure_session st sid now f).orders = st.orders ∧
    (ensure_session st sid now f).tickets = st.tickets ∧
    (ensure_session st sid now f).callCode = st.callCode ∧
    (ensure_session st sid now f).callUpdatedAt = st.callUpdatedAt := by
  unfold ensure_session
  refine ⟨?_, ?_, ?_, ?_⟩ <;>
    (split <;> first
      | rfl
      | (split <;> first
          | rfl
          | (split <;> rfl)))

theorem findSession_map_pres (l : List SessionRow) (g : SessionRow → SessionRow)
    (hg : ∀ r, (g r).sessionId = r.sessionId) (sid : String) :
    (l.map g).find? (fun r => r.sessionId == sid) =
      (l.find? (fun r => r.sessionId == sid)).map g :=
  find?_map_of_pres g _ (fun r => by rw [hg r]) l

theorem ensure_session_finds (st : Store) (sid : String) (now : Nat)
    (f : Bool) (h : sid ≠ "") :
    (findSession (ensure_session st sid now f) sid).isSome := by
  unfold ensure_session
  rw [if_neg h]
  cases hf : findSession st sid with
  | none =>
    simp only
    unfold findSession at hf ⊢
    simp only [List.find?_append, hf, Option.none_or]
    simp [List.find?_cons]
  | some row =>
    simp only
    split
    · unfold findSession at hf ⊢
      simp only
      rw [findSession_map_pres st.sessions _ (fun r => by split <;> rfl) sid]
      rw [hf]
      rfl
    · unfold findSession at hf ⊢
      rw [hf]
      rfl

/-- **C7** (amended): `join_session` is *permissive*, not strict — for every
non-empty session code (unknown and expired codes included) it runs
`ensure_session` unconditionally, so after a join the session row exists
(created fresh or reset as needed), the connection's presence is registered,
and the only emitted message is the state broadcast: no rejection is ever
sent and `sessionIsActive` is never consulted. -/
theorem c7_join_permissive (w : World) (connId sessionIdRaw nicknameRaw : String)
    (now : Nat) (hsid : pyStrip sessionIdRaw ≠ "") :
    (on_join w connId sessionIdRaw nicknameRaw now).1.store =
      ensure_session w.store (pyStrip sessionIdRaw) now false ∧
    (findSession (on_join w connId sessionIdRaw nicknameRaw now).1.store
      (pyStrip sessionIdRaw)).isSome ∧
    assocGet ((assocGet (on_join w connId sessionIdRaw nicknameRaw now).1.users
        (pyStrip sessionIdRaw)).getD []) connId =
      some (cleanNickname nicknameRaw) ∧
    (on_join w connId sessionIdRaw nicknameRaw now).2 =
      [broadcast_state (ensure_session w.store (pyStrip sessionIdRaw) now false)
        (pyStrip sessionIdRaw)] := by
  refine ⟨rfl, ?_, ?_, rfl⟩
  · exact ensure_session_finds w.store (pyStrip sessionIdRaw) now false hsid
  · unfold on_join
    simp only
    rw [assocGet_assocSet_self]
    simp only [Option.getD_some]
    rw [assocGet_assocSet_self]

/-- **C7** counterexample: joining the *unknown* code 7777 on the empty
store is not rejected and does change state — the session row is created and
presence is registered, contradicting the claim's "emits a rejection and
performs no state change". -/
theorem c7_counterexample :
    session_is_active emptyWorld.store "7777" 100 = false ∧
    emptyWorld.store.sessions = [] ∧
    (on_join emptyWorld "conn1" "7777" "Mina" 100).1.store.sessions.map
      (·.sessionId) = ["7777"] ∧
    (on_join emptyWorld "conn1" "7777" "Mina" 100).2 =
      [.sessionState "7777" []] ∧
    assocGet ((assocGet (on_join emptyWorld "conn1" "7777" "Mina" 100).1.users
        "7777").getD []) "conn1" = some "Mina" :=
  ⟨rfl, rfl, rfl, rfl, rfl⟩

/-- **C7** witness: the amended theorem applied to a concrete join. -/
theorem c7_witness :
    pyStrip "4821" ≠ "" ∧
    (findSession (on_join emptyWorld "c1" "4821" "Ann" 5).1.store
      (pyStrip "4821")).isSome ∧
    assocGet ((assocGet (on_join emptyWorld "c1" "4821" "Ann" 5).1.users
        (pyStrip "4821")).getD []) "c1" = some (cleanNickname "Ann") :=
  ⟨by decide,
   (c7_join_permissive emptyWorld "c1" "4821" "Ann" 5 (by decide)).2.1,
   (c7_join_permissive emptyWorld "c1" "4821" "Ann" 5 (by decide)).2.2.1⟩

/-- **C8**: evaluation at the failing input.  Connection Y (not the holder)
is rejected with a reason naming the holder Xena and the world is left
entirely unchanged — that part of the claim holds.  But when the holder X
sets the quantity of the locked line `a`, the write-through save re-runs
`normalize_cart_item` over *every* line, and `str(None) = "None"` turns the
untouched line `b`'s `addedBy` from `null` into the string `"None"`: the
request does not modify only the targeted line, contradicting the claim —
and contradicting the code's own intent for `addedBy` (its own normalizer
is what produced the `null`). -/
theorem c8_lock_rejection_and_renormalization_bug :
    on_cart_set_qty lockWorld "Y" "4821" "a" (.pint 3) 10 50 =
      .ok (lockWorld, [.opRejected "被 Xena 鎖定中"]) ∧
    (get_session_cart lockWorld.store "4821").map (·.addedBy) =
      [some (.pstr "Xena"), some .pnone] ∧
    (get_session_cart lockWorldAfterX.store "4821").map
      (fun it => (it.lineId, it.qty, it.addedBy)) =
      [(some (.pstr "a"), some (.pint 3), some (.pstr "Xena")),
       (some (.pstr "b"), some (.pint 1), some (.pstr "None"))] :=
  ⟨rfl, rfl, rfl⟩

/-- **C9** (amended): submitting with an empty cart yields the `ok=false`
"cart empty" signal and creates no order and no ticket — but it is not free
of store writes in general: `ensure_session` runs *before* the empty-cart
check, so a missing session row is created (and an expired one reset).
Only for an existing, still-active session is the store left completely
unchanged. -/
theorem c9_empty_submit (w : World) (sessionIdRaw tableRaw : String)
    (now seed : Nat) (hsid : pyStrip sessionIdRaw ≠ "")
    (hempty : get_session_cart
      (ensure_session w.store (pyStrip sessionIdRaw) now false)
      (pyStrip sessionIdRaw) = []) :
    on_submit w sessionIdRaw tableRaw now seed =
      .ok ({ w with store := ensure_session w.store (pyStrip sessionIdRaw) now false },
           [.submitResult false "cart empty" none]) ∧
    (ensure_session w.store (pyStrip sessionIdRaw) now false).orders =
      w.store.orders ∧
    (ensure_session w.store (pyStrip sessionIdRaw) now false).tickets =
      w.store.tickets ∧
    (session_is_active w.store (pyStrip sessionIdRaw) now = true →
      ensure_session w.store (pyStrip sessionIdRaw) now false = w.store) := by
  refine ⟨?_, (ensure_session_frame _ _ _ _).1,
    (ensure_session_frame _ _ _ _).2.1, ?_⟩
  · unfold on_submit
    rw [if_neg hsid]
    simp only [hempty, List.isEmpty_nil, if_true]
  · intro hact
    unfold session_is_active at hact
    unfold ensure_session
    rw [if_neg hsid]
    cases hf : findSession w.store (pyStrip sessionIdRaw) with
    | none => rw [hf] at hact; cases hact
    | some row =>
      rw [hf] at hact
      simp only
      rw [if_neg ?_]
      simp only [decide_eq_true_eq] at hact
      push_neg
      exact ⟨hact, Bool.false_ne_true⟩

/-- **C9** counterexample: an empty-cart submit for the *unknown* code 4821
emits only the "cart empty" failure and creates no order/ticket, yet it does
mutate the store — the sessions relation gains a row for 4821,
contradicting "performs no store mutation at all". -/
theorem c9_counterexample :
    emptyWorld.store.sessions = [] ∧
    eventsOfHandler (on_submit emptyWorld "4821" "" 100 7) =
      [.submitResult false "cart empty" none] ∧
    (worldOfHandler (on_submit emptyWorld "4821" "" 100 7)
      emptyWorld).store.sessions.map (·.sessionId) = ["4821"] ∧
    (worldOfHandler (on_submit emptyWorld "4821" "" 100 7)
      emptyWorld).store.orders = [] ∧
    (worldOfHandler (on_submit emptyWorld "4821" "" 100 7)
      emptyWorld).store.tickets = [] :=
  ⟨rfl, rfl, rfl, rfl, rfl⟩

/-- **C9** witness: for an existing, active session with an empty cart the
amended theorem yields the failure signal with the store fully unchanged. -/
theorem c9_witness :
    on_submit activeEmptyWorld "4821" "" 5 0 =
      .ok ({ activeEmptyWorld with
             store := ensure_session activeEmptyWorld.store "4821" 5 false },
           [.submitResult false "cart empty" none]) ∧
    ensure_session activeEmptyWorld.store "4821" 5 false =
      activeEmptyWorld.store :=
  ⟨(c9_empty_submit activeEmptyWorld "4821" "" 5 0 (by decide) rfl).1,
   (c9_empty_submit activeEmptyWorld "4821" "" 5 0 (by decide) rfl).2.2.2 rfl⟩

theorem max_order_attained {st : Store} {sid : String} {M : Nat}
    (hM : _find_existing_order_for_session st sid = some M) :
    ∃ r ∈ st.orders, r.sessionId = sid ∧ r.id = M := by
  unfold _find_existing_order_for_session at hM
  by_cases h0 : maxOrderIdFor st sid = 0
  · rw [if_pos h0] at hM; cases hM
  · rw [if_neg h0] at hM
    injection hM with hM
    have hmem : maxOrderIdFor st sid ∈
        ((st.orders.filter (fun r => r.sessionId == sid)).map (·.id)) := by
      rw [maxOrderIdFor_eq_maxNat]
      exact maxNat_mem_of_ne_zero (by rw [← maxOrderIdFor_eq_maxNat]; exact h0)
    rw [hM] at hmem
    obtain ⟨r, hrf, hrid⟩ := List.mem_map.mp hmem
    have hrm := List.mem_filter.mp hrf
    exact ⟨r, hrm.1, by simpa using hrm.2, hrid⟩

/-- **C10**: `load_order_by_session` is not read-only — when the session has
no (truthy) bound order id but at least one order row exists under that
code, it durably sets the session's `order_id` to the highest existing order
id for the code before returning the order view (which is the order with
that id); only when no such order exists does it leave the store unchanged
and report not-exists. -/
theorem c10_load_binds_on_fallback :
    (∀ (st : Store) (sid : String) (seed : Nat) (row : SessionRow) (M : Nat),
      findSession st sid = some row →
      pyOptNat row.orderId = none →
      _find_existing_order_for_session st sid = some M →
      (load_order_by_session st sid seed).1.sessions =
        st.sessions.map (fun r =>
          if r.sessionId == sid then { r with orderId := some M } else r) ∧
      _get_session_order_id (load_order_by_session st sid seed).1 sid =
        some M ∧
      (load_order_by_session st sid seed).1.orders = st.orders ∧
      (load_order_by_session st sid seed).1.tickets = st.tickets ∧
      (load_order_by_session st sid seed).1.callCode = st.callCode ∧
      (load_order_by_session st sid seed).2 ≠ .ok none ∧
      (∀ v, (load_order_by_session st sid seed).2 = .ok (some v) →
        v.id = M)) ∧
    (∀ (st : Store) (sid : String) (seed : Nat),
      pyOptNat (_get_session_order_id st sid) = none →
      _find_existing_order_for_session st sid = none →
      load_order_by_session st sid seed = (st, .ok none)) := by
  constructor
  · intro st sid seed row M hfind horder hM
    have hgs : _get_session_order_id st sid = row.orderId := by
      unfold _get_session_order_id
      rw [hfind]
      rfl
    obtain ⟨r2, hr2mem, hr2sid, hr2id⟩ := max_order_attained hM
    have hfindo : (st.orders.find? (fun r => r.id == M)).isSome :=
      List.find?_isSome.mpr ⟨r2, hr2mem, by simp [hr2id]⟩
    obtain ⟨r', hr'⟩ := Option.isSome_iff_exists.mp hfindo
    have hr'id : r'.id = M := by
      have := List.find?_some hr'
      simpa using this
    have hrowsid : (row.sessionId == sid) = true := by
      have := List.find?_some hfind
      simpa using this
    have hord0 : (_set_session_order_id st sid M).orders = st.orders := rfl
    unfold load_order_by_session
    rw [hgs, horder, hM]
    dsimp only
    rw [hord0, hr']
    refine ⟨rfl, ?_, rfl, rfl, rfl, ?_, ?_⟩
    · unfold _get_session_order_id findSession _set_session_order_id
      simp only
      rw [findSession_map_pres st.sessions _ (fun r => by split <;> rfl) sid]
      unfold findSession at hfind
      rw [hfind]
      have hseq : row.sessionId = sid := by simpa using hrowsid
      simp [hseq]
    · cases hn : normalizeList seed r'.items with
      | error e => simp [hn]
      | ok items =>
        cases hc : calc_total items with
        | error e => simp [hn, hc]
        | ok total => simp [hn, hc]
    · intro v hv
      simp only at hv
      cases hn : normalizeList seed r'.items with
      | error e => rw [hn] at hv; cases hv
      | ok items =>
        rw [hn] at hv
        dsimp only at hv
        cases hc : calc_total items with
        | error e => rw [hc] at hv; cases hv
        | ok total =>
          rw [hc] at hv
          injection hv with hv1
          injection hv1 with hv2
          rw [← hv2]
          exact hr'id
  · intro st sid seed hb hfe
    unfold load_order_by_session
    rw [hb, hfe]

/-- **C10** witness: the fallback half applied to the legacy store — orders
2 and 5 exist for code 4821, the unbound session gets pinned to 5. -/
theorem c10_witness :
    _get_session_order_id
      (load_order_by_session stLegacy "4821" 0).1 "4821" = some 5 ∧
    (load_order_by_session stLegacy "4821" 0).1.orders = stLegacy.orders ∧
    (load_order_by_session stLegacy "4821" 0).2 ≠ .ok none :=
  ⟨(c10_load_binds_on_fallback.1 stLegacy "4821" 0 unboundSessionRow 5
      rfl rfl rfl).2.1,
   (c10_load_binds_on_fallback.1 stLegacy "4821" 0 unboundSessionRow 5
      rfl rfl rfl).2.2.1,
   (c10_load_binds_on_fallback.1 stLegacy "4821" 0 unboundSessionRow 5
      rfl rfl rfl).2.2.2.2.2.1⟩

theorem get_or_create_tickets (st : Store) (sid table : String)
    (items : List RawItem) (now : Nat) :
    (get_or_create_order_id_for_session st sid table items now).1.tickets =
      st.tickets := by
  unfold get_or_create_order_id_for_session
  have hens := (ensure_session_frame st sid now false).2.1
  dsimp only
  split
  · exact hens
  · split
    · exact hens
    · exact hens

theorem countNew_map_pres (st : Store) (oid : Nat) (g : TicketRow → TicketRow)
    (hg : ∀ t, (g t).orderId = t.orderId ∧ (g t).status = t.status) :
    countNewTickets { st with tickets := st.tickets.map g } oid =
      countNewTickets st oid := by
  unfold countNewTickets
  simp only
  rw [filter_map_of_pres g _ (fun t => by rw [(hg t).1, (hg t).2]),
    List.length_map]

theorem countNew_tickets_congr {st st' : Store} {oid : Nat}
    (h : st'.tickets = st.tickets) :
    countNewTickets st' oid = countNewTickets st oid := by
  unfold countNewTickets
  rw [h]

theorem openNew_tickets_congr {st st' : Store} {oid : Nat}
    (h : st'.tickets = st.tickets) :
    _get_open_new_ticket st' oid = _get_open_new_ticket st oid := by
  unfold _get_open_new_ticket
  rw [h]

theorem maxBatch_tickets_congr {st st' : Store} {oid : Nat}
    (h : st'.tickets = st.tickets) :
    maxBatchNoFor st' oid = maxBatchNoFor st oid := by
  unfold maxBatchNoFor
  rw [h]

theorem countNew_eq_zero_of_no_open {st : Store} {oid : Nat}
    (h : _get_open_new_ticket st oid = none) : countNewTickets st oid = 0 := by
  unfold countNewTickets
  rw [(get_open_new_ticket_none_iff st oid).mp h]
  rfl

/-- **C1** (amended): a successful submission never opens a second ticket
while one is `"new"`: if the resolved order has an open `"new"` ticket the
submission merges the normalized lines into it, refreshes its timestamp and
returns `merged=true` with that ticket's id and batch number, creating no
ticket; if not, it creates exactly one ticket with status `"new"` and batch
number `max(existing batch numbers)+1` (1 when the order has none),
returning `merged=false` — so a submission preserves "at most one `new`
ticket per order".  (The unrestricted per-order invariant "at most one
ticket is `new` at any time" fails, because the status-update interface can
set any ticket back to `"new"`: see the counterexample.) -/
theorem c1_submit_merge_or_create (st : Store) (S table : String)
    (cart : List RawItem) (now seed : Nat) (st' : Store) (r : SubmitResult)
    (hs : submit_cart_create_or_merge_ticket st S table cart now seed =
      .ok (st', some r)) :
    ∃ citems, normalizeList seed cart = .ok citems ∧
      (r.merged = true →
        ∃ tk, _get_open_new_ticket st r.orderId = some tk ∧
          r.ticketId = tk.id ∧
          r.batchNo = (if tk.batchNo = 0 then 1 else tk.batchNo) ∧
          st'.tickets.map (·.id) = st.tickets.map (·.id) ∧
          (∃ t' ∈ st'.tickets, t'.id = tk.id ∧
            t'.items = tk.items ++ citems ∧ t'.time = now ∧
            t'.status = "new")) ∧
      (r.merged = false →
        _get_open_new_ticket st r.orderId = none ∧
        r.batchNo = maxBatchNoFor st r.orderId + 1 ∧
        st'.tickets = st.tickets ++
          [{ id := r.ticketId, orderId := r.orderId, sessionId := S,
             tableNum := table, time := now, items := citems,
             status := "new", batchNo := r.batchNo }]) ∧
      countNewTickets st' r.orderId ≤ max 1 (countNewTickets st r.orderId) := by
  unfold submit_cart_create_or_merge_ticket at hs
  cases hn : normalizeList seed cart with
  | error e => rw [hn] at hs; cases hs
  | ok citems =>
    rw [hn] at hs
    dsimp only at hs
    by_cases hE : citems.isEmpty = true
    · rw [if_pos hE] at hs
      injection hs with hs'
      injection hs' with h1 h2
      cases h2
    · rw [if_neg hE] at hs
      rcases hg : get_or_create_order_id_for_session st S table citems now
        with ⟨st1, oid⟩
      rw [hg] at hs
      dsimp only at hs
      have htk : (_append_items_to_header st1 oid table citems).tickets =
          st.tickets := by
        have h0 := get_or_create_tickets st S table citems now
        rw [hg] at h0
        exact h0
      refine ⟨citems, rfl, ?_⟩
      cases hopen : _get_open_new_ticket
          (_append_items_to_header st1 oid table citems) oid with
      | some tk =>
        rw [hopen] at hs
        dsimp only at hs
        injection hs with hs'
        injection hs' with h1 h2
        injection h2 with h3
        subst h1
        subst h3
        have hopen' : _get_open_new_ticket st oid = some tk := by
          rw [← openNew_tickets_congr htk]
          exact hopen
        have hspec := get_open_new_ticket_spec hopen'
        refine ⟨?_, ?_, ?_⟩
        · intro _
          refine ⟨tk, hopen', rfl, rfl, ?_, ?_⟩
          · show ((_append_items_to_header st1 oid table citems).tickets.map
              (fun t => if t.id == tk.id then
                { t with items := tk.items ++ citems, time := now }
              else t)).map (·.id) = st.tickets.map (·.id)
            rw [map_field_of_pres _ _ (fun t => by split <;> rfl), htk]
          · refine ⟨(fun t : TicketRow => if t.id == tk.id then
                { t with items := tk.items ++ citems, time := now }
              else t) tk, ?_, ?_⟩
            · apply List.mem_map_of_mem
              rw [htk]
              exact hspec.1
            · simp only [beq_self_eq_true, if_true]
              exact ⟨trivial, trivial, trivial, hspec.2.2⟩
        · intro hm
          cases hm
        · have hc1 : countNewTickets
              (_merge_into_ticket (_append_items_to_header st1 oid table citems)
                tk.id (tk.items ++ citems) now) oid =
              countNewTickets st oid := by
            unfold _merge_into_ticket
            rw [countNew_map_pres _ _ _
              (fun t => by split <;> exact ⟨rfl, rfl⟩)]
            exact countNew_tickets_congr htk
          rw [hc1]
          exact Nat.le_max_right 1 _
      | none =>
        rw [hopen] at hs
        dsimp only at hs
        injection hs with hs'
        injection hs' with h1 h2
        injection h2 with h3
        subst h1
        subst h3
        have hopen' : _get_open_new_ticket st oid = none := by
          rw [← openNew_tickets_congr htk]
          exact hopen
        have hbatch : _get_next_batch_no
            (_append_items_to_header st1 oid table citems) oid =
            maxBatchNoFor st oid + 1 := by
          unfold _get_next_batch_no
          rw [maxBatch_tickets_congr htk]
        refine ⟨?_, ?_, ?_⟩
        · intro hm
          cases hm
        · intro _
          refine ⟨hopen', hbatch, ?_⟩
          show (_append_items_to_header st1 oid table citems).tickets ++ _ =
            st.tickets ++ _
          rw [htk]
          rfl
        · have hz : countNewTickets st oid = 0 :=
            countNew_eq_zero_of_no_open hopen'
          have hcnt : countNewTickets
              ((_create_ticket (_append_items_to_header st1 oid table citems)
                oid S table citems
                (_get_next_batch_no (_append_items_to_header st1 oid table citems) oid)
                now).1) oid = 1 := by
            unfold _create_ticket countNewTickets
            simp only [List.filter_append, List.length_append]
            rw [(get_open_new_ticket_none_iff _ oid).mp hopen]
            simp
          rw [hcnt]
          exact Nat.le_max_left 1 _

/-- **C1** counterexample to "at most one ticket per order is `new` at any
time": from the empty store, submit (ticket 1 `new`), move ticket 1 to
`making`, submit again (ticket 2 `new`, batch 2), then set ticket 1 back to
`new` through the status API — order 1 now has two `"new"` tickets. -/
theorem c1_counterexample :
    countNewTickets scnStore4 1 = 2 ∧
    scnStore4.tickets.map (fun t => (t.id, t.orderId, t.status)) =
      [(1, 1, "new"), (2, 1, "new")] := ⟨rfl, rfl⟩

/-- **C1** witness: the amended theorem applied to the scenario's second
submission, which merges into open ticket 1 and creates nothing. -/
theorem c1_witness :
    submit_cart_create_or_merge_ticket scnStore1 "4821" "" [itemFries] 200 50 =
      .ok (scnStoreMerge, some ⟨1, 1, 1, true⟩) ∧
    countNewTickets scnStoreMerge 1 ≤ max 1 (countNewTickets scnStore1 1) ∧
    scnStoreMerge.tickets.map (·.id) = scnStore1.tickets.map (·.id) := by
  refine ⟨rfl, ?_, rfl⟩
  obtain ⟨citems, -, -, -, hcount⟩ :=
    c1_submit_merge_or_create scnStore1 "4821" "" [itemFries] 200 50
      scnStoreMerge ⟨1, 1, 1, true⟩ rfl
  exact hcount

theorem BindClauseL_map_reset {l : List SessionRow} {S : String} {O : Nat}
    (g : SessionRow → SessionRow)
    (hg : ∀ r, (g r).sessionId = r.sessionId ∧
      ((g r).orderId = none ∨ (g r).orderId = r.orderId))
    (h : BindClauseL l S O) : BindClauseL (l.map g) S O := by
  intro s hs hsid
  obtain ⟨r, hr, rfl⟩ := List.mem_map.mp hs
  rcases (hg r).2 with h1 | h1
  · exact Or.inl h1
  · rw [h1]
    exact h r hr (by rw [← (hg r).1]; exact hsid)

theorem BindClauseL_append {l : List SessionRow} {S : String} {O : Nat}
    (r0 : SessionRow) (h : BindClauseL l S O) (h0 : r0.orderId = none) :
    BindClauseL (l ++ [r0]) S O := by
  intro s hs hsid
  rcases List.mem_append.mp hs with hm | hm
  · exact h s hm hsid
  · simp only [List.mem_singleton] at hm
    subst hm
    exact Or.inl h0

theorem BindClauseL_set_self (l : List SessionRow) (S : String) (O : Nat) :
    BindClauseL (l.map (fun r =>
      if r.sessionId == S then { r with orderId := some O } else r)) S O := by
  intro s hs hsid
  obtain ⟨r, hr, rfl⟩ := List.mem_map.mp hs
  by_cases hc : (r.sessionId == S) = true
  · right
    simp only [hc, if_true]
  · simp only [Bool.not_eq_true] at hc
    simp only [hc, Bool.false_eq_true, if_false] at hsid
    exact absurd hsid (by simpa using hc)

theorem BindClauseL_set_other {l : List SessionRow} {S sid : String} {O : Nat}
    (m : Nat) (hne : sid ≠ S) (h : BindClauseL l S O) :
    BindClauseL (l.map (fun r =>
      if r.sessionId == sid then { r with orderId := some m } else r)) S O := by
  intro s hs hsid
  obtain ⟨r, hr, rfl⟩ := List.mem_map.mp hs
  by_cases hc : (r.sessionId == sid) = true
  · exfalso
    apply hne
    have h1 : r.sessionId = sid := by simpa using hc
    have h2 : r.sessionId = S := by
      simpa [hc] using hsid
    rw [← h2, h1]
  · simp only [Bool.not_eq_true] at hc
    simp only [hc, Bool.false_eq_true, if_false] at hsid ⊢
    exact h r hr hsid

theorem OrderPinL_map {l : List OrderRow} {S : String} {O : Nat}
    (g : OrderRow → OrderRow)
    (hg : ∀ r, (g r).id = r.id ∧ (g r).sessionId = r.sessionId)
    (h : OrderPinL l S O) : OrderPinL (l.map g) S O := by
  obtain ⟨⟨r, hr, hrs, hri⟩, hall⟩ := h
  constructor
  · exact ⟨g r, List.mem_map_of_mem g hr, by rw [(hg r).2]; exact hrs,
      by rw [(hg r).1]; exact hri⟩
  · intro r' hr' hs'
    obtain ⟨r0, hr0, rfl⟩ := List.mem_map.mp hr'
    rw [(hg r0).1]
    exact hall r0 hr0 (by rw [← (hg r0).2]; exact hs')

theorem OrderPinL_append_other {l : List OrderRow} {S : String} {O : Nat}
    (r0 : OrderRow) (hne : r0.sessionId ≠ S) (h : OrderPinL l S O) :
    OrderPinL (l ++ [r0]) S O := by
  obtain ⟨⟨r, hr, hrs, hri⟩, hall⟩ := h
  constructor
  · exact ⟨r, List.mem_append_left _ hr, hrs, hri⟩
  · intro r' hr' hs'
    rcases List.mem_append.mp hr' with hm | hm
    · exact hall r' hm hs'
    · simp only [List.mem_singleton] at hm
      subst hm
      exact absurd hs' hne

theorem le_maxOrderIdFor {st : Store} {S : String} {r : OrderRow}
    (hr : r ∈ st.orders) (hs : r.sessionId = S) : r.id ≤ maxOrderIdFor st S := by
  rw [maxOrderIdFor_eq_maxNat]
  apply le_maxNat_of_mem
  exact List.mem_map_of_mem _ (List.mem_filter.mpr ⟨hr, by simp [hs]⟩)

theorem id_lt_nextOrderId {st : Store} {r : OrderRow} (hr : r ∈ st.orders) :
    r.id < nextOrderId st := by
  rw [nextOrderId_eq_maxNat]
  exact Nat.lt_succ_of_le (le_maxNat_of_mem (List.mem_map_of_mem _ hr))

theorem findExisting_eq {st : Store} {S : String} {O : Nat} (h1 : 1 ≤ O)
    (hp : OrderPinL st.orders S O) :
    _find_existing_order_for_session st S = some O := by
  obtain ⟨⟨r, hr, hrs, hri⟩, hall⟩ := hp
  have hle : maxOrderIdFor st S ≤ O := by
    rw [maxOrderIdFor_eq_maxNat]
    apply maxNat_le
    intro n hn
    obtain ⟨r0, hr0f, rfl⟩ := List.mem_map.mp hn
    have hr0 := List.mem_filter.mp hr0f
    exact hall r0 hr0.1 (by simpa using hr0.2)
  have hge : O ≤ maxOrderIdFor st S := by
    rw [← hri]
    exact le_maxOrderIdFor hr hrs
  have heq : maxOrderIdFor st S = O := Nat.le_antisymm hle hge
  unfold _find_existing_order_for_session
  rw [heq, if_neg (by omega)]

theorem bound_eq {st : Store} {S : String} {O oid : Nat} (h1 : 1 ≤ O)
    (hb : BindClauseL st.sessions S O)
    (h : pyOptNat (_get_session_order_id st S) = some oid) : oid = O := by
  unfold _get_session_order_id at h
  cases hf : findSession st S with
  | none => rw [hf] at h; cases h
  | some row =>
    rw [hf] at h
    simp only [Option.some_bind] at h
    have hrow_mem : row ∈ st.sessions := List.mem_of_find?_eq_some hf
    have hrow_sid : row.sessionId = S := by simpa using List.find?_some hf
    rcases hb row hrow_mem hrow_sid with h1' | h1'
    · rw [h1'] at h; cases h
    · rw [h1'] at h
      cases O with
      | zero => exact absurd h1 (by decide)
      | succ n =>
        unfold pyOptNat at h
        injection h with h'
        exact h'.symm

theorem BindClause_ensure {st : Store} {S : String} {O : Nat}
    (sid : String) (now : Nat) (f : Bool) (h : BindClauseL st.sessions S O) :
    BindClauseL (ensure_session st sid now f).sessions S O := by
  unfold ensure_session
  split
  · exact h
  · split
    · exact BindClauseL_append _ h rfl
    · split
      · refine BindClauseL_map_reset _ (fun r => ⟨?_, ?_⟩) h
        · split <;> rfl
        · split
          · exact Or.inl rfl
          · exact Or.inr rfl
      · exact h

theorem unbound_ensure {st : Store} {sid : String} {now : Nat} {f : Bool}
    (h : pyOptNat (_get_session_order_id st sid) = none) :
    pyOptNat (_get_session_order_id (ensure_session st sid now f) sid) =
      none := by
  by_cases hsid : sid = ""
  · unfold ensure_session
    rw [if_pos hsid]
    exact h
  · unfold ensure_session
    rw [if_neg hsid]
    cases hf : findSession st sid with
    | none =>
      simp only
      unfold _get_session_order_id findSession
      simp only
      rw [List.find?_append]
      unfold findSession at hf
      rw [hf]
      simp only [Option.none_or, List.find?_cons, beq_self_eq_true, cond_true,
        Option.some_bind]
      rfl
    | some row =>
      simp only
      split
      · unfold _get_session_order_id findSession
        simp only
        rw [findSession_map_pres st.sessions _ (fun r => by split <;> rfl) sid]
        unfold findSession at hf
        rw [hf]
        have hrs : (row.sessionId == sid) = true := by
          simpa using List.find?_some hf
        simp only [Option.map_some', Option.some_bind]
        rw [if_pos hrs]
        rfl
      · exact h

theorem Inv_frames {st st' : Store} {S : String} {O : Nat}
    (hs : st'.sessions = st.sessions) (ho : st'.orders = st.orders)
    (h : OrderIdentity st S O) : OrderIdentity st' S O := by
  obtain ⟨h1, h2, h3⟩ := h
  refine ⟨h1, ?_, ?_⟩
  · rw [ho]; exact h2
  · rw [hs]; exact h3

theorem Inv_ensure {st : Store} {S : String} {O : Nat} (sid : String)
    (now : Nat) (f : Bool) (h : OrderIdentity st S O) :
    OrderIdentity (ensure_session st sid now f) S O := by
  obtain ⟨h1, h2, h3⟩ := h
  refine ⟨h1, ?_, BindClause_ensure sid now f h3⟩
  rw [(ensure_session_frame st sid now f).1]
  exact h2

theorem Inv_save {st st' : Store} {S : String} {O : Nat} {sid : String}
    {cart : List RawItem} {now seed : Nat}
    (hsv : save_session_cart st sid cart now seed = .ok st')
    (h : OrderIdentity st S O) : OrderIdentity st' S O := by
  obtain ⟨h1, h2, h3⟩ := h
  unfold save_session_cart at hsv
  cases hn : normalizeList seed cart with
  | error e => rw [hn] at hsv; cases hsv
  | ok cart' =>
    rw [hn] at hsv
    cases hf : findSession st sid with
    | none =>
      rw [hf] at hsv
      injection hsv with hsv'
      subst hsv'
      exact ⟨h1, h2, BindClauseL_append _ h3 rfl⟩
    | some row =>
      rw [hf] at hsv
      injection hsv with hsv'
      subst hsv'
      refine ⟨h1, h2, ?_⟩
      refine BindClauseL_map_reset _ (fun r => ⟨?_, ?_⟩) h3
      · split <;> rfl
      · split
        · exact Or.inr rfl
        · exact Or.inr rfl

theorem update_order_status_api_frame (st : Store) (tid : Nat) (raw : String)
    (now : Nat) :
    (update_order_status_api st tid raw now).1.sessions = st.sessions ∧
    (update_order_status_api st tid raw now).1.orders = st.orders := by
  refine ⟨?_, ?_⟩ <;>
    (unfold update_order_status_api update_ticket_status set_call_code
     dsimp only
     repeat' split
     all_goals rfl)

theorem Inv_statusApi {st : Store} {S : String} {O : Nat} (tid : Nat)
    (raw : String) (now : Nat) (h : OrderIdentity st S O) :
    OrderIdentity (update_order_status_api st tid raw now).1 S O :=
  Inv_frames (update_order_status_api_frame st tid raw now).1
    (update_order_status_api_frame st tid raw now).2 h

theorem get_or_create_of_inv {st : Store} {S table : String}
    {items : List RawItem} {now O : Nat} (hO : OrderIdentity st S O) :
    (get_or_create_order_id_for_session st S table items now).2 = O ∧
    (get_or_create_order_id_for_session st S table items now).1.orders =
      st.orders ∧
    OrderIdentity (get_or_create_order_id_for_session st S table items now).1
      S O := by
  obtain ⟨h1, hpin, hbind⟩ := hO
  have hens_ord := (ensure_session_frame st S now false).1
  have hbind0 : BindClauseL (ensure_session st S now false).sessions S O :=
    BindClause_ensure S now false hbind
  have hpin0 : OrderPinL (ensure_session st S now false).orders S O := by
    rw [hens_ord]; exact hpin
  unfold get_or_create_order_id_for_session
  dsimp only
  cases hb : pyOptNat
      (_get_session_order_id (ensure_session st S now false) S) with
  | some oid =>
    have hoid : oid = O := bound_eq h1 hbind0 hb
    subst hoid
    exact ⟨rfl, hens_ord, h1, hpin0, hbind0⟩
  | none =>
    have hfe : _find_existing_order_for_session (ensure_session st S now false)
        S = some O := findExisting_eq h1 hpin0
    rw [hfe]
    exact ⟨rfl, hens_ord, h1, hpin0, BindClauseL_set_self _ S O⟩

theorem get_or_create_establishes {st : Store} {S table : String}
    {items : List RawItem} {now : Nat}
    (hub : pyOptNat (_get_session_order_id st S) = none) :
    OrderIdentity (get_or_create_order_id_for_session st S table items now).1
      S (get_or_create_order_id_for_session st S table items now).2 := by
  have hub0 : pyOptNat
      (_get_session_order_id (ensure_session st S now false) S) = none :=
    unbound_ensure hub
  unfold get_or_create_order_id_for_session
  dsimp only
  rw [hub0]
  cases hfe : _find_existing_order_for_session (ensure_session st S now false)
      S with
  | some m =>
    have hm0 : m ≠ 0 ∧ m = maxOrderIdFor (ensure_session st S now false) S := by
      unfold _find_existing_order_for_session at hfe
      by_cases hz : maxOrderIdFor (ensure_session st S now false) S = 0
      · rw [if_pos hz] at hfe; cases hfe
      · rw [if_neg hz] at hfe
        injection hfe with hfe'
        exact ⟨hfe' ▸ hz, hfe'.symm⟩
    obtain ⟨hx, hxmem, hxs, hri⟩ := max_order_attained hfe
    refine ⟨Nat.one_le_iff_ne_zero.mpr hm0.1, ⟨?_, ?_⟩,
      BindClauseL_set_self _ S m⟩
    · exact ⟨hx, hxmem, hxs, hri⟩
    · intro r hr hs
      rw [hm0.2]
      exact le_maxOrderIdFor hr hs
  | none =>
    refine ⟨?_, ⟨?_, ?_⟩, BindClauseL_set_self _ S _⟩
    · show 1 ≤ nextOrderId (ensure_session st S now false)
      unfold nextOrderId
      omega
    · refine ⟨{ id := nextOrderId (ensure_session st S now false),
                sessionId := S, tableNum := table, time := now,
                items := items, status := "new" }, ?_, rfl, rfl⟩
      exact List.mem_append_right _ (List.mem_singleton.mpr rfl)
    · intro r hr hs
      rcases List.mem_append.mp hr with hm | hm
      · exact le_of_lt (id_lt_nextOrderId hm)
      · simp only [List.mem_singleton] at hm
        subst hm
        exact le_refl _

theorem get_or_create_other {st : Store} {S' table : String}
    {items : List RawItem} {now : Nat} {S : String} {O : Nat}
    (hne : S' ≠ S) (h : OrderIdentity st S O) :
    OrderIdentity (get_or_create_order_id_for_session st S' table items now).1
      S O := by
  have h0 := @Inv_ensure st S O S' now false h
  obtain ⟨h1, h2, h3⟩ := h0
  unfold get_or_create_order_id_for_session
  dsimp only
  split
  · exact ⟨h1, h2, h3⟩
  · split
    · exact ⟨h1, h2, BindClauseL_set_other _ hne h3⟩
    · refine ⟨h1, ?_, BindClauseL_set_other _ hne h3⟩
      exact OrderPinL_append_other _ hne h2

theorem Inv_load_other {st : Store} {sid : String} {seed : Nat} {S : String}
    {O : Nat} (hne : sid ≠ S) (h : OrderIdentity st S O) :
    OrderIdentity (load_order_by_session st sid seed).1 S O := by
  obtain ⟨h1, h2, h3⟩ := h
  unfold load_order_by_session
  dsimp only
  cases hb : pyOptNat (_get_session_order_id st sid) with
  | some oid =>
    dsimp only
    split
    · exact ⟨h1, h2, h3⟩
    · exact ⟨h1, h2, h3⟩
  | none =>
    cases hfe : _find_existing_order_for_session st sid with
    | none => exact ⟨h1, h2, h3⟩
    | some m =>
      dsimp only
      split
      · exact ⟨h1, h2, BindClauseL_set_other _ hne h3⟩
      · exact ⟨h1, h2, BindClauseL_set_other _ hne h3⟩

theorem submit_stable {st : Store} {S table : String} {cart : List RawItem}
    {now seed : Nat} {st' : Store} {r : SubmitResult} {O : Nat}
    (hO : OrderIdentity st S O)
    (hs : submit_cart_create_or_merge_ticket st S table cart now seed =
      .ok (st', some r)) :
    r.orderId = O ∧ OrderIdentity st' S O ∧
    st'.orders.map (fun x => (x.id, x.sessionId)) =
      st.orders.map (fun x => (x.id, x.sessionId)) := by
  unfold submit_cart_create_or_merge_ticket at hs
  cases hn : normalizeList seed cart with
  | error e => rw [hn] at hs; cases hs
  | ok citems =>
    rw [hn] at hs
    dsimp only at hs
    by_cases hE : citems.isEmpty = true
    · rw [if_pos hE] at hs
      injection hs with hs'
      injection hs' with ha hb
      cases hb
    · rw [if_neg hE] at hs
      obtain ⟨hid, hord, hInv1⟩ :=
        @get_or_create_of_inv st S table citems now O hO
      rcases hg : get_or_create_order_id_for_session st S table citems now
        with ⟨st1, oid⟩
      rw [hg] at hs hid hord hInv1
      dsimp only at hid hord hInv1
      subst hid
      have hInv2 : OrderIdentity (_append_items_to_header st1 oid table citems)
          S oid := by
        obtain ⟨i1, i2, i3⟩ := hInv1
        exact ⟨i1, OrderPinL_map _
          (fun x => ⟨by split <;> rfl, by split <;> rfl⟩) i2, i3⟩
      have hmap2 : (_append_items_to_header st1 oid table citems).orders.map
          (fun x => (x.id, x.sessionId)) =
          st.orders.map (fun x => (x.id, x.sessionId)) := by
        show (st1.orders.map _).map _ = _
        rw [map_field_of_pres _ _ (fun x => by split <;> rfl), hord]
      cases hopen : _get_open_new_ticket
          (_append_items_to_header st1 oid table citems) oid with
      | some tk =>
        rw [hopen] at hs
        dsimp only at hs
        injection hs with hs'
        injection hs' with ha hb
        injection hb with hc
        subst ha
        subst hc
        exact ⟨rfl, Inv_frames rfl rfl hInv2, hmap2⟩
      | none =>
        rw [hopen] at hs
        dsimp only at hs
        injection hs with hs'
        injection hs' with ha hb
        injection hb with hc
        subst ha
        subst hc
        exact ⟨rfl, Inv_frames rfl rfl hInv2, hmap2⟩

theorem submit_establishes {st : Store} {S table : String}
    {cart : List RawItem} {now seed : Nat} {st' : Store} {r : SubmitResult}
    (hub : pyOptNat (_get_session_order_id st S) = none)
    (hs : submit_cart_create_or_merge_ticket st S table cart now seed =
      .ok (st', some r)) :
    OrderIdentity st' S r.orderId := by
  unfold submit_cart_create_or_merge_ticket at hs
  cases hn : normalizeList seed cart with
  | error e => rw [hn] at hs; cases hs
  | ok citems =>
    rw [hn] at hs
    dsimp only at hs
    by_cases hE : citems.isEmpty = true
    · rw [if_pos hE] at hs
      injection hs with hs'
      injection hs' with ha hb
      cases hb
    · rw [if_neg hE] at hs
      have hInv1 := @get_or_create_establishes st S table citems now hub
      rcases hg : get_or_create_order_id_for_session st S table citems now
        with ⟨st1, oid⟩
      rw [hg] at hs hInv1
      dsimp only at hInv1
      have hInv2 : OrderIdentity (_append_items_to_header st1 oid table citems)
          S oid := by
        obtain ⟨i1, i2, i3⟩ := hInv1
        exact ⟨i1, OrderPinL_map _
          (fun x => ⟨by split <;> rfl, by split <;> rfl⟩) i2, i3⟩
      cases hopen : _get_open_new_ticket
          (_append_items_to_header st1 oid table citems) oid with
      | some tk =>
        rw [hopen] at hs
        dsimp only at hs
        injection hs with hs'
        injection hs' with ha hb
        injection hb with hc
        subst ha
        subst hc
        exact Inv_frames rfl rfl hInv2
      | none =>
        rw [hopen] at hs
        dsimp only at hs
        injection hs with hs'
        injection hs' with ha hb
        injection hb with hc
        subst ha
        subst hc
        exact Inv_frames rfl rfl hInv2

theorem submit_other {st : Store} {S' table : String} {cart : List RawItem}
    {now seed : Nat} {st' : Store} {res : Option SubmitResult} {S : String}
    {O : Nat} (hO : OrderIdentity st S O) (hne : S' ≠ S)
    (hs : submit_cart_create_or_merge_ticket st S' table cart now seed =
      .ok (st', res)) :
    OrderIdentity st' S O := by
  unfold submit_cart_create_or_merge_ticket at hs
  cases hn : normalizeList seed cart with
  | error e => rw [hn] at hs; cases hs
  | ok citems =>
    rw [hn] at hs
    dsimp only at hs
    by_cases hE : citems.isEmpty = true
    · rw [if_pos hE] at hs
      injection hs with hs'
      injection hs' with ha hb
      subst ha
      exact hO
    · rw [if_neg hE] at hs
      have hInv1 := @get_or_create_other st S' table citems now S O hne hO
      rcases hg : get_or_create_order_id_for_session st S' table citems now
        with ⟨st1, oid⟩
      rw [hg] at hs hInv1
      dsimp only at hInv1
      have hInv2 : OrderIdentity (_append_items_to_header st1 oid table citems)
          S O := by
        obtain ⟨i1, i2, i3⟩ := hInv1
        exact ⟨i1, OrderPinL_map _
          (fun x => ⟨by split <;> rfl, by split <;> rfl⟩) i2, i3⟩
      cases hopen : _get_open_new_ticket
          (_append_items_to_header st1 oid table citems) oid with
      | some tk =>
        rw [hopen] at hs
        dsimp only at hs
        injection hs with hs'
        injection hs' with ha hb
        subst ha
        exact Inv_frames rfl rfl hInv2
      | none =>
        rw [hopen] at hs
        dsimp only at hs
        injection hs with hs'
        injection hs' with ha hb
        subst ha
        exact Inv_frames rfl rfl hInv2

theorem load_stable {st : Store} {S : String} {seed : Nat} {O : Nat}
    (hO : OrderIdentity st S O) :
    (load_order_by_session st S seed).2 ≠ .ok none ∧
    (∀ v, (load_order_by_session st S seed).2 = .ok (some v) → v.id = O) ∧
    OrderIdentity (load_order_by_session st S seed).1 S O := by
  obtain ⟨h1, hpin, hbind⟩ := hO
  obtain ⟨r2, hr2m, hr2s, hr2i⟩ := hpin.1
  unfold load_order_by_session
  dsimp only
  cases hb : pyOptNat (_get_session_order_id st S) with
  | some oid =>
    have hoid : oid = O := bound_eq h1 hbind hb
    subst hoid
    dsimp only
    have hfind : (st.orders.find? (fun x => x.id == oid)).isSome :=
      List.find?_isSome.mpr ⟨r2, hr2m, by simp [hr2i]⟩
    obtain ⟨row2, hrow2⟩ := Option.isSome_iff_exists.mp hfind
    rw [hrow2]
    have hrow2id : row2.id = oid := by simpa using List.find?_some hrow2
    refine ⟨?_, ?_, h1, hpin, hbind⟩
    · cases hn : normalizeList seed row2.items with
      | error e => simp [hn]
      | ok items =>
        cases hc : calc_total items with
        | error e => simp [hn, hc]
        | ok total => simp [hn, hc]
    · intro v hv
      dsimp only at hv
      cases hn : normalizeList seed row2.items with
      | error e => rw [hn] at hv; cases hv
      | ok items =>
        rw [hn] at hv
        dsimp only at hv
        cases hc : calc_total items with
        | error e => rw [hc] at hv; cases hv
        | ok total =>
          rw [hc] at hv
          injection hv with hv1
          injection hv1 with hv2
          rw [← hv2]
          exact hrow2id
  | none =>
    have hfe : _find_existing_order_for_session st S = some O :=
      findExisting_eq h1 ⟨⟨r2, hr2m, hr2s, hr2i⟩, hpin.2⟩
    rw [hfe]
    dsimp only
    have hords : (_set_session_order_id st S O).orders = st.orders := rfl
    rw [hords]
    have hfind : (st.orders.find? (fun x => x.id == O)).isSome :=
      List.find?_isSome.mpr ⟨r2, hr2m, by simp [hr2i]⟩
    obtain ⟨row2, hrow2⟩ := Option.isSome_iff_exists.mp hfind
    rw [hrow2]
    have hrow2id : row2.id = O := by simpa using List.find?_some hrow2
    refine ⟨?_, ?_, h1, hpin, BindClauseL_set_self _ S O⟩
    · cases hn : normalizeList seed row2.items with
      | error e => simp [hn]
      | ok items =>
        cases hc : calc_total items with
        | error e => simp [hn, hc]
        | ok total => simp [hn, hc]
    · intro v hv
      dsimp only at hv
      cases hn : normalizeList seed row2.items with
      | error e => rw [hn] at hv; cases hv
      | ok items =>
        rw [hn] at hv
        dsimp only at hv
        cases hc : calc_total items with
        | error e => rw [hc] at hv; cases hv
        | ok total =>
          rw [hc] at hv
          injection hv with hv1
          injection hv1 with hv2
          rw [← hv2]
          exact hrow2id

/-- **C2**: stable order identity.  `OrderIdentity st S O` pins session `S`
to order `O` (the order row exists, is the MAX-id order of `S`, and the
session binding — when present — points at `O`).  A first submission for an
unbound session establishes it; once it holds, every subsequent submission
for `S` resolves the same `O` and neither adds nor removes any order row,
every `orderDetail` lookup resolves an order view with id `O` (never
not-exists), and the identity is preserved by every other store operation:
`ensure_session` (including expiry resets), cart saves, ticket status
updates, lookups for other sessions, and submissions of other sessions. -/
theorem c2_order_identity_stable :
    (∀ (st : Store) (S table : String) (cart : List RawItem) (now seed : Nat)
      (st' : Store) (r : SubmitResult),
      pyOptNat (_get_session_order_id st S) = none →
      submit_cart_create_or_merge_ticket st S table cart now seed =
        .ok (st', some r) →
      OrderIdentity st' S r.orderId) ∧
    (∀ (st : Store) (S : String) (O : Nat) (table : String)
      (cart : List RawItem) (now seed : Nat) (st' : Store) (r : SubmitResult),
      OrderIdentity st S O →
      submit_cart_create_or_merge_ticket st S table cart now seed =
        .ok (st', some r) →
      r.orderId = O ∧ OrderIdentity st' S O ∧
      st'.orders.map (fun x => (x.id, x.sessionId)) =
        st.orders.map (fun x => (x.id, x.sessionId))) ∧
    (∀ (st : Store) (S : String) (O : Nat) (seed : Nat),
      OrderIdentity st S O →
      (load_order_by_session st S seed).2 ≠ .ok none ∧
      (∀ v, (load_order_by_session st S seed).2 = .ok (some v) → v.id = O) ∧
      OrderIdentity (load_order_by_session st S seed).1 S O) ∧
    (∀ (st : Store) (S : String) (O : Nat) (sid : String) (now : Nat)
      (f : Bool), OrderIdentity st S O →
      OrderIdentity (ensure_session st sid now f) S O) ∧
    (∀ (st : Store) (S : String) (O : Nat) (sid : String)
      (cart : List RawItem) (now seed : Nat) (st' : Store),
      OrderIdentity st S O →
      save_session_cart st sid cart now seed = .ok st' →
      OrderIdentity st' S O) ∧
    (∀ (st : Store) (S : String) (O : Nat) (tid : Nat) (raw : String)
      (now : Nat), OrderIdentity st S O →
      OrderIdentity (update_order_status_api st tid raw now).1 S O) ∧
    (∀ (st : Store) (S : String) (O : Nat) (sid : String) (seed : Nat),
      OrderIdentity st S O → sid ≠ S →
      OrderIdentity (load_order_by_session st sid seed).1 S O) ∧
    (∀ (st : Store) (S : String) (O : Nat) (S' table : String)
      (cart : List RawItem) (now seed : Nat) (st' : Store)
      (res : Option SubmitResult),
      OrderIdentity st S O → S' ≠ S →
      submit_cart_create_or_merge_ticket st S' table cart now seed =
        .ok (st', res) →
      OrderIdentity st' S O) := by
  refine ⟨?_, ?_, ?_, ?_, ?_, ?_, ?_, ?_⟩
  · intro st S table cart now seed st' r hub hs
    exact submit_establishes hub hs
  · intro st S O table cart now seed st' r hO hs
    exact submit_stable hO hs
  · intro st S O seed hO
    exact load_stable hO
  · intro st S O sid now f hO
    exact Inv_ensure sid now f hO
  · intro st S O sid cart now seed st' hO hsv
    exact Inv_save hsv hO
  · intro st S O tid raw now hO
    exact Inv_statusApi tid raw now hO
  · intro st S O sid seed hO hne
    exact Inv_load_other hne hO
  · intro st S O S' table cart now seed st' res hO hne hs
    exact submit_other hO hne hs

/-- **C2** witness: the first submission on the empty store binds 4821 to
order 1, and from that state the detail lookup cannot report not-exists. -/
theorem c2_witness :
    OrderIdentity scnStore1 "4821" 1 ∧
    (load_order_by_session scnStore1 "4821" 7).2 ≠ .ok none := by
  have hInv : OrderIdentity scnStore1 "4821" 1 :=
    c2_order_identity_stable.1 Store.empty "4821" "" [itemTea] 100 0
      scnStore1 ⟨1, 1, 1, false⟩ rfl rfl
  exact ⟨hInv, (c2_order_identity_stable.2.2.1 scnStore1 "4821" 1 7 hInv).1⟩
